import Mathlib

set_option maxRecDepth 16384

/-!
Verification development for the `wit-bindgen` code generator and the
`wasi-nn` handle table of this repository.

The definitions below are shallow embeddings of the Rust sources:

* `crates/wit-bindgen/src/rust.rs`   — mode/lifetime/name resolution and the
  mode-aware type printer (`RustGenerator` trait);
* `crates/wit-bindgen/src/lib.rs`    — the type-definition emitter, import and
  export binding generators, trappable-error codegen and top-level assembly
  (`Wasmtime` / `InterfaceGenerator`);
* `crates/wasi-nn/src/ctx.rs`        — the `Table<K, V>` handle table.

Conventions used throughout the embedding:

* The `Source` text buffer (`source.rs`, not part of the sources here) is
  modelled as a plain `String` accumulator; its indentation handling is
  formatting-only.  Emitter functions return the text they append.
* `TypeInfo` is the result of the type-graph analyzer (`types.rs`, not part
  of the sources here); it is modelled from the spec as the four usage
  booleans, and all functions take the analyzer's output as an input map.
* Rust `HashMap`s / `HashSet`s whose iteration order the code observes are
  modelled as association lists carrying an explicit iteration sequence.
* Recursion through the resolved type graph (`Resolve`) is bounded by an
  explicit `fuel` parameter; fuel exhaustion returns `""` and is unreachable
  for the acyclic resolves produced by the external resolver.  Every theorem
  that evaluates a printer supplies sufficient fuel.
* Rust panics inside emitters (generation-time fatal conditions, spec par. 6)
  are modelled by emitting the panic message text in place; no theorem input
  exercises those arms except where a claim is precisely about them.
-/

namespace WitBindgen

/-- Type identifiers (`wit_parser::TypeId`): indices into the resolve. -/
abbrev TypeId := Nat

/-- `wit_parser::Type`: primitive types or a reference to a `TypeDef`. -/
inductive WType
  | bool | u8 | u16 | u32 | u64 | s8 | s16 | s32 | s64
  | float32 | float64 | char | string
  | id (t : TypeId)
deriving DecidableEq, Repr

/-- `wit_parser::Handle`: owned or borrowed handle to a resource type. -/
inductive WHandle
  | own (t : TypeId)
  | borrow (t : TypeId)
deriving DecidableEq, Repr

/-- `wit_parser::Docs`. -/
structure Docs where
  contents : Option String
deriving DecidableEq, Repr

/-- A record field. -/
structure WField where
  name : String
  ty : WType
  docs : Docs
deriving DecidableEq, Repr

/-- A variant case (`wit_parser::Case`). -/
structure WCase where
  name : String
  ty : Option WType
  docs : Docs
deriving DecidableEq, Repr

/-- A union case (`wit_parser::UnionCase`). -/
structure WUnionCase where
  ty : WType
  docs : Docs
deriving DecidableEq, Repr

/-- An enum case (`wit_parser::EnumCase`). -/
structure WEnumCase where
  name : String
  docs : Docs
deriving DecidableEq, Repr

/-- A single flag of a flags type. -/
structure WFlag where
  name : String
  docs : Docs
deriving DecidableEq, Repr

/-- `wit_parser::Record`. -/
structure WRecord where
  fields : List WField
deriving DecidableEq, Repr

/-- `wit_parser::Tuple`. -/
structure WTuple where
  types : List WType
deriving DecidableEq, Repr

/-- `wit_parser::Variant`. -/
structure WVariant where
  cases : List WCase
deriving DecidableEq, Repr

/-- `wit_parser::Union`. -/
structure WUnion where
  cases : List WUnionCase
deriving DecidableEq, Repr

/-- `wit_parser::Enum`. -/
structure WEnum where
  cases : List WEnumCase
deriving DecidableEq, Repr

/-- `wit_parser::Flags`. -/
structure WFlags where
  flags : List WFlag
deriving DecidableEq, Repr

/-- `wit_parser::Result_` (the `result<ok, err>` shape). -/
structure WResult where
  ok : Option WType
  err : Option WType
deriving DecidableEq, Repr

/-- `wit_parser::TypeDefKind`.  `Opt`, `Res` and `Typ` embed the source's
`Option`, `Result` and `Type` constructors (those names clash with Lean). -/
inductive TypeDefKind
  | Record (r : WRecord)
  | Flags (f : WFlags)
  | Tuple (t : WTuple)
  | Enum (e : WEnum)
  | Variant (v : WVariant)
  | Opt (t : WType)
  | Res (r : WResult)
  | Union (u : WUnion)
  | List (t : WType)
  | Future (t : Option WType)
  | Stream (element : Option WType) (endTy : Option WType)
  | Typ (t : WType)
  | Handle (h : WHandle)
  | Resource
  | Unknown
deriving DecidableEq, Repr

/-- `wit_parser::TypeOwner`. -/
inductive TypeOwner
  | World (w : Nat)
  | Interface (i : Nat)
  | None
deriving DecidableEq, Repr

/-- `wit_parser::TypeDef`. -/
structure TypeDef where
  name : Option String
  kind : TypeDefKind
  owner : TypeOwner
  docs : Docs
deriving DecidableEq, Repr

/-- The per-type usage flags computed by the type-graph analyzer.
Modelled from the spec: `types.rs` (the analyzer producing `TypeInfo`) is not
among the sources; the spec describes its output as four booleans — used in
an owned context, used in a borrowed context, transitively contains a
list/string, used as a trappable error type.  All functions below consume
the analyzer output as an explicit map. -/
structure TypeInfo where
  owned : Bool
  borrowed : Bool
  has_list : Bool
  error : Bool
deriving DecidableEq, Repr

/-- `Ownership` (lib.rs): the global ownership policy configuration. -/
inductive Ownership
  | Owning
  | Borrowing (duplicate_if_necessary : Bool)
deriving DecidableEq, Repr

/-- `TypeMode` (rust.rs): how a type is represented at a use site. -/
inductive TypeMode
  | Owned
  | AllBorrowed (lt : String)
deriving DecidableEq, Repr

/-! ### Case conversions

The `heck` crate is an external dependency.  The conversions below are
modelled for the identifier fragment the generator feeds them: lowercase
ASCII kebab-case / snake-case WIT identifiers. -/

/-- Character-level worker for `to_upper_camel_case`: drop separators and
capitalize the character that starts each word. -/
def camel_aux (at_start : Bool) : List Char → List Char
  | [] => []
  | c :: cs =>
    if c = '-' || c = '_' then camel_aux true cs
    else (if at_start then c.toUpper else c) :: camel_aux false cs

/-- `heck::ToUpperCamelCase` on lowercase kebab/snake-case identifiers:
split on separators and capitalize each word. -/
def to_upper_camel_case (s : String) : String :=
  String.mk (camel_aux true s.data)

/-- `heck::ToSnakeCase` on lowercase kebab-case identifiers. -/
def to_snake_case (s : String) : String :=
  String.mk (s.data.map (fun c => if c = '-' then '_' else c))

/-- `heck::ToShoutySnakeCase` on lowercase kebab-case identifiers. -/
def to_shouty_snake_case (s : String) : String :=
  String.mk ((to_snake_case s).data.map Char.toUpper)

/-- `to_rust_ident` (rust.rs): translate a WIT name to a Rust `snake_case`
identifier, escaping Rust keywords. -/
def to_rust_ident (name : String) : String :=
  match name with
  | "as" => "as_"
  | "break" => "break_"
  | "const" => "const_"
  | "continue" => "continue_"
  | "crate" => "crate_"
  | "else" => "else_"
  | "enum" => "enum_"
  | "extern" => "extern_"
  | "false" => "false_"
  | "fn" => "fn_"
  | "for" => "for_"
  | "if" => "if_"
  | "impl" => "impl_"
  | "in" => "in_"
  | "let" => "let_"
  | "loop" => "loop_"
  | "match" => "match_"
  | "mod" => "mod_"
  | "move" => "move_"
  | "mut" => "mut_"
  | "pub" => "pub_"
  | "ref" => "ref_"
  | "return" => "return_"
  | "self" => "self_"
  | "static" => "static_"
  | "struct" => "struct_"
  | "super" => "super_"
  | "trait" => "trait_"
  | "true" => "true_"
  | "type" => "type_"
  | "unsafe" => "unsafe_"
  | "use" => "use_"
  | "where" => "where_"
  | "while" => "while_"
  | "async" => "async_"
  | "await" => "await_"
  | "dyn" => "dyn_"
  | "abstract" => "abstract_"
  | "become" => "become_"
  | "box" => "box_"
  | "do" => "do_"
  | "final" => "final_"
  | "macro" => "macro_"
  | "override" => "override_"
  | "priv" => "priv_"
  | "typeof" => "typeof_"
  | "unsized" => "unsized_"
  | "virtual" => "virtual_"
  | "yield" => "yield_"
  | "try" => "try_"
  | s => to_snake_case s

/-- `to_rust_upper_camel_case` (rust.rs): `Host` is reserved for the host
trait, so a WIT name `host` is escaped. -/
def to_rust_upper_camel_case (name : String) : String :=
  match name with
  | "host" => "Host_"
  | s => to_upper_camel_case s

/-! ### The `RustGenerator` trait context

`rust.rs` is written against the abstract trait methods `resolve()`,
`info()`, `ownership()` and `path_to_interface()`; the structure `RG`
packages exactly those. -/

/-- The abstract context of the `RustGenerator` trait (rust.rs). -/
structure RG where
  types : TypeId → TypeDef
  info : TypeId → TypeInfo
  ownership : Ownership
  path_to_interface : Nat → Option String

/-- `RustGenerator::uses_two_names` (rust.rs lines 454-464). -/
def uses_two_names (g : RG) (info : TypeInfo) : Bool :=
  info.has_list && info.borrowed && info.owned &&
    (match g.ownership with
     | .Borrowing true => true
     | _ => false)

/-- `RustGenerator::lifetime_for` (rust.rs lines 466-488). -/
def lifetime_for (g : RG) (info : TypeInfo) (mode : TypeMode) : Option String :=
  match g.ownership with
  | .Owning => none
  | _ =>
    match mode with
    | .AllBorrowed s =>
      if !info.has_list then none
      else if uses_two_names g info || (info.borrowed && !info.owned) then some s
      else none
    | _ => none

/-- `RustGenerator::param_name` (rust.rs lines 426-438).  The source unwraps
the type's name (only named types reach this function); the embedding
defaults a missing name to `""`. -/
def param_name (g : RG) (ty : TypeId) : String :=
  let info := g.info ty
  let name := to_upper_camel_case (((g.types ty).name).getD "")
  if uses_two_names g info then name ++ "Param" else name

/-- `RustGenerator::result_name` (rust.rs lines 440-452). -/
def result_name (g : RG) (ty : TypeId) : String :=
  let info := g.info ty
  let name := to_upper_camel_case (((g.types ty).name).getD "")
  if uses_two_names g info then name ++ "Result" else name

/-- `RustGenerator::modes_of` (rust.rs lines 286-304): the `(generated name,
mode)` pairs a type is emitted in.  The source's `assert!` in the borrowed
branch is provable (that branch has `owned = false`) and not modelled. -/
def modes_of (g : RG) (ty : TypeId) : List (String × TypeMode) :=
  let info := g.info ty
  if !info.owned && !info.borrowed then []
  else
    let first_mode :=
      if info.owned || !info.borrowed ||
         (match g.ownership with | .Owning => true | _ => false)
      then TypeMode.Owned
      else TypeMode.AllBorrowed "\x27a"
    if uses_two_names g info then
      [(result_name g ty, first_mode), (param_name g ty, TypeMode.AllBorrowed "\x27a")]
    else
      [(result_name g ty, first_mode)]

/-- `RustGenerator::print_generics_` (rust.rs lines 270-284). -/
def print_generics_ (lifetime : Option String) : Option String :=
  match lifetime with
  | none => none
  | some lt => some ("<" ++ lt ++ "," ++ ">")

/-- Text contributed by `print_generics` (rust.rs lines 264-268): the
rendered generics, or nothing. -/
def print_generics (lifetime : Option String) : String :=
  (print_generics_ lifetime).getD ""

/-- The local `needs_generics` helper of `print_tyid_` (rust.rs lines
130-152).  Recursion follows alias chains through the resolve, bounded by
fuel; exhausted fuel answers `true` (unreachable on acyclic resolves). -/
def needs_generics (g : RG) (fuel : Nat) (k : TypeDefKind) : Bool :=
  match fuel with
  | 0 => true
  | fuel + 1 =>
    match k with
    | .Variant _ | .Record _ | .Opt _ | .Res _ | .Future _ | .Stream _ _
    | .List _ | .Flags _ | .Enum _ | .Tuple _ | .Union _ | .Handle _
    | .Resource => true
    | .Typ (.id t) => needs_generics g fuel (g.types t).kind
    | .Typ .string => true
    | .Typ _ => false
    | .Unknown => true

/-- Sequential emission of one chunk of text per list element, in order:
the embedding of the source's `for` loops over `push_str`. -/
def emit_each {α : Type} (l : List α) (f : α → String) : String :=
  match l with
  | [] => ""
  | x :: xs => f x ++ emit_each xs f

mutual

/-- `RustGenerator::print_ty_` (rust.rs lines 36-65). -/
def print_ty_ (g : RG) (fuel : Nat) (ty : WType) (mode : TypeMode) : String :=
  match fuel with
  | 0 => ""
  | fuel + 1 =>
    match ty with
    | .id t => print_tyid_ g fuel t mode
    | .bool => "bool"
    | .u8 => "u8"
    | .u16 => "u16"
    | .u32 => "u32"
    | .u64 => "u64"
    | .s8 => "i8"
    | .s16 => "i16"
    | .s32 => "i32"
    | .s64 => "i64"
    | .float32 => "f32"
    | .float64 => "f64"
    | .char => "char"
    | .string =>
      match mode with
      | .AllBorrowed lt =>
        "&" ++ (if lt ≠ "\x27_" then lt ++ " " else "") ++ "str"
      | .Owned => "String"
termination_by structural fuel

/-- `RustGenerator::print_optional_ty_` (rust.rs lines 72-77). -/
def print_optional_ty_ (g : RG) (fuel : Nat) (ty : Option WType) (mode : TypeMode) : String :=
  match fuel with
  | 0 => ""
  | fuel + 1 =>
    match ty with
    | some ty => print_ty_ g fuel ty mode
    | none => "()"
termination_by structural fuel

/-- `RustGenerator::print_tyid_` (rust.rs lines 84-231).  The `panic!` arms
for anonymous composite types are modelled by returning the panic message
text (generation-time fatal conditions, spec par. 6). -/
def print_tyid_ (g : RG) (fuel : Nat) (id : TypeId) (mode : TypeMode) : String :=
  match fuel with
  | 0 => ""
  | fuel + 1 =>
    let info := g.info id
    let lt := lifetime_for g info mode
    let ty := g.types id
    if ty.name.isSome then
      (if info.has_list && lt.isNone then
        match mode with
        | .AllBorrowed lt2 => "&" ++ (if lt2 ≠ "\x27_" then lt2 ++ " " else "")
        | _ => ""
      else "")
      ++ (match ty.owner with
          | .Interface iid =>
            match g.path_to_interface iid with
            | some path => path ++ "::"
            | none => ""
          | _ => "")
      ++ (if lt.isSome then param_name g id else result_name g id)
      ++ (if info.has_list && needs_generics g fuel ty.kind then
            print_generics lt
          else "")
    else
      match ty.kind with
      | .List t => print_list_ g fuel t mode
      | .Opt t => "Option<" ++ print_ty_ g fuel t mode ++ ">"
      | .Res r =>
        "Result<" ++ print_optional_ty_ g fuel r.ok mode ++ ","
          ++ print_optional_ty_ g fuel r.err mode ++ ">"
      | .Variant _ => "unsupported anonymous variant"
      | .Tuple t =>
        "(" ++ print_tuple_elems g fuel t.types mode ++ ")"
      | .Resource => "unsupported anonymous type reference: resource"
      | .Record _ => "unsupported anonymous type reference: record"
      | .Flags _ => "unsupported anonymous type reference: flags"
      | .Enum _ => "unsupported anonymous type reference: enum"
      | .Union _ => "unsupported anonymous type reference: union"
      | .Future t => "Future<" ++ print_optional_ty_ g fuel t mode ++ ">"
      | .Stream s e =>
        "Stream<" ++ print_optional_ty_ g fuel s mode ++ ","
          ++ print_optional_ty_ g fuel e mode ++ ">"
      | .Handle (.own _) => "wasmtime::component::ResourceAny"
      | .Handle (.borrow _) => "wasmtime::component::ResourceAny"
      | .Typ t => print_ty_ g fuel t mode
      | .Unknown => "unreachable"
termination_by structural fuel

/-- `RustGenerator::print_list_` (rust.rs lines 238-262). -/
def print_list_ (g : RG) (fuel : Nat) (ty : WType) (mode : TypeMode) : String :=
  match fuel with
  | 0 => ""
  | fuel + 1 =>
    let next_mode :=
      match g.ownership with
      | .Owning => TypeMode.Owned
      | _ => mode
    match mode with
    | .AllBorrowed lt =>
      "&" ++ (if lt ≠ "\x27_" then lt ++ " " else "")
        ++ "[" ++ print_ty_ g fuel ty next_mode ++ "]"
    | .Owned => "Vec<" ++ print_ty_ g fuel ty next_mode ++ ">"
termination_by structural fuel

/-- The tuple-member loop of `print_tyid_`'s anonymous-tuple arm
(rust.rs lines 177-184): each member type followed by a trailing comma. -/
def print_tuple_elems (g : RG) (fuel : Nat) (tys : List WType) (mode : TypeMode) : String :=
  match fuel with
  | 0 => ""
  | fuel + 1 =>
    match tys with
    | [] => ""
    | t :: ts => print_ty_ g fuel t mode ++ "," ++ print_tuple_elems g fuel ts mode
termination_by structural fuel

end

mutual

/-- `RustGenerator::write_name` (rust.rs lines 307-367): the camel-cased
name of a type, used to name union variants.  Fueled for alias recursion. -/
def write_name (g : RG) (fuel : Nat) (ty : WType) : String :=
  match fuel with
  | 0 => ""
  | fuel + 1 =>
    match ty with
    | .bool => "Bool"
    | .u8 => "U8"
    | .u16 => "U16"
    | .u32 => "U32"
    | .u64 => "U64"
    | .s8 => "I8"
    | .s16 => "I16"
    | .s32 => "I32"
    | .s64 => "I64"
    | .float32 => "F32"
    | .float64 => "F64"
    | .char => "Char"
    | .string => "String"
    | .id id =>
      let td := g.types id
      match td.name with
      | some name => to_upper_camel_case name
      | none =>
        match td.kind with
        | .Opt ty => "Optional" ++ write_name g fuel ty
        | .Res _ => "Result"
        | .Tuple _ => "Tuple"
        | .List ty => write_name g fuel ty ++ "List"
        | .Future ty => write_optional_name g fuel ty ++ "Future"
        | .Stream s e =>
          write_optional_name g fuel s ++ write_optional_name g fuel e ++ "Stream"
        | .Typ ty => write_name g fuel ty
        | .Record _ => "Record"
        | .Flags _ => "Flags"
        | .Variant _ => "Variant"
        | .Enum _ => "Enum"
        | .Union _ => "Union"
        | .Handle (.own t) => write_name g fuel (.id t) ++ "Own"
        | .Handle (.borrow t) => write_name g fuel (.id t) ++ "Borrow"
        | .Resource => "Resource"
        | .Unknown => "unreachable"
termination_by structural fuel

/-- `write_optional_name` (rust.rs lines 369-374). -/
def write_optional_name (g : RG) (fuel : Nat) (ty : Option WType) : String :=
  match fuel with
  | 0 => ""
  | fuel + 1 =>
    match ty with
    | some ty => write_name g fuel ty
    | none => "()"
termination_by structural fuel

end

/-- The usage state of a union case name (`UsedState` in
`union_case_names`, rust.rs lines 378-387); `once` holds the position of
the first usage in place of the source's mutable reference. -/
inductive UsedState
  | once (idx : Nat)
  | multiple (n : Nat)
deriving DecidableEq, Repr

/-- One step of `union_case_names` (rust.rs lines 389-421): assign a name
for the next case given the names assigned so far and the usage map. -/
def union_case_names_step (g : RG) (fuel : Nat)
    (acc : List String × List (String × UsedState)) (case : WUnionCase) :
    List String × List (String × UsedState) :=
  let (assigned, used) := acc
  let name := write_name g fuel case.ty
  match (used.find? (fun p => p.1 = name)).map Prod.snd with
  | Option.none =>
    (assigned ++ [name], used ++ [(name, UsedState.once assigned.length)])
  | some (UsedState.multiple n) =>
    (assigned ++ [name ++ toString n],
     used.map (fun p => if p.1 = name then (p.1, UsedState.multiple (n + 1)) else p))
  | some (UsedState.once first) =>
    (assigned.set first ((assigned.getD first "") ++ "0") ++ [name ++ "1"],
     used.map (fun p => if p.1 = name then (p.1, UsedState.multiple 2) else p))

/-- `RustGenerator::union_case_names` (rust.rs lines 377-424): names for
the cases of a union, disambiguated with numeric suffixes. -/
def union_case_names (g : RG) (fuel : Nat) (union : WUnion) : List String :=
  (union.cases.foldl (union_case_names_step g fuel) ([], [])).1

/-! ### Functions, interfaces, worlds and the resolve -/

/-- `wit_parser::FunctionKind`. -/
inductive FunctionKind
  | Freestanding
  | Method (r : TypeId)
  | Static (r : TypeId)
  | Constructor (r : TypeId)
deriving DecidableEq, Repr

/-- `wit_parser::Results`: a function's result shape. -/
inductive Results
  | Named (rs : List (String × WType))
  | Anon (t : WType)
deriving DecidableEq, Repr

/-- `Results::iter_types`. -/
def Results.iter_types : Results → List WType
  | .Named rs => rs.map Prod.snd
  | .Anon t => [t]

/-- `wit_parser::Function`. -/
structure Function where
  name : String
  kind : FunctionKind
  params : List (String × WType)
  results : Results
  docs : Docs
deriving DecidableEq, Repr

/-- `wit_parser::Interface` (the parts the generator reads). -/
structure Interface where
  name : Option String
  types : List (String × TypeId)
  functions : List (String × Function)
  package : Option Nat
deriving DecidableEq, Repr

/-- `wit_parser::PackageName` (namespace and name). -/
structure PackageName where
  namespace_ : String
  name : String
deriving DecidableEq, Repr

/-- `wit_parser::Package` (the part the generator reads). -/
structure Package where
  name : PackageName
deriving DecidableEq, Repr

/-- `wit_parser::WorldKey`. -/
inductive WorldKey
  | Name (s : String)
  | Interface (i : Nat)
deriving DecidableEq, Repr

/-- `wit_parser::WorldItem`.  `Ty` embeds the source's `Type` constructor. -/
inductive WorldItem
  | Function (f : Function)
  | Interface (i : Nat)
  | Ty (t : TypeId)
deriving DecidableEq, Repr

/-- `wit_parser::World` (the parts the generator reads). -/
structure World where
  name : String
  imports : List (WorldKey × WorldItem)
  exports : List (WorldKey × WorldItem)
deriving DecidableEq, Repr

/-- The resolved graph (`wit_parser::Resolve`), with arenas modelled as
total maps from ids. -/
structure Resolve where
  types : TypeId → TypeDef
  interfaces : Nat → Interface
  worlds : Nat → World
  packages : Nat → Package

/-- `Resolve::name_world_key`.  Modelled from the external `wit-parser`
crate: a named key is its name, an interface key is the fully qualified
`namespace:package/interface` name. -/
def Resolve.name_world_key (r : Resolve) (k : WorldKey) : String :=
  match k with
  | .Name s => s
  | .Interface id =>
    let iface := r.interfaces id
    let pkg := r.packages (iface.package.getD 0)
    pkg.name.namespace_ ++ ":" ++ pkg.name.name ++ "/" ++ (iface.name.getD "")

/-- `resolve_type_definition_id` (lib.rs lines 2579-2586): chase `use`
alias chains down to the defining type id. -/
def resolve_type_definition_id (r : Resolve) (fuel : Nat) (id : TypeId) : TypeId :=
  match fuel with
  | 0 => id
  | fuel + 1 =>
    match (r.types id).kind with
    | .Typ (.id def_id) => resolve_type_definition_id r fuel def_id
    | _ => id

/-! ### Generator configuration and context -/

/-- `TrappableError` (lib.rs lines 120-135). -/
structure TrappableError where
  wit_name : String
  wit_owner : Option String
  rust_name : String
deriving DecidableEq, Repr

/-- `Opts` (lib.rs lines 91-118).  The `with` and `resources` maps are Rust
`HashMap`s; they are modelled as association lists whose order is the
(unspecified) iteration order the run observes. -/
structure Opts where
  rustfmt : Bool
  tracing : Bool
  async_ : Bool
  trappable_error_type : List TrappableError
  ownership : Ownership
  only_interfaces : Bool
  with_ : List (String × String)
  resources : List (String × String)

/-- Lookup in an association list (`HashMap::get`). -/
def assoc_get {α β : Type} [DecidableEq α] (l : List (α × β)) (k : α) : Option β :=
  (l.find? (fun p => p.1 = k)).map Prod.snd

/-- `InterfaceName` (lib.rs lines 34-41). -/
structure InterfaceName where
  remapped : Bool
  path : String
deriving DecidableEq, Repr

/-- `Direction` (lib.rs lines 28-32). -/
inductive Direction
  | Import
  | Export
deriving DecidableEq, Repr

/-- The context an `InterfaceGenerator` (lib.rs lines 692-707) reads: the
resolve, the options, the analyzer output, the external layout-sizing pass
(`SizeAlign`, modelled from the spec as two maps since `wit-parser` is
external), the interface-name table of the surrounding `Wasmtime` value,
the current interface, and printer fuel. -/
structure IG where
  resolve : Resolve
  opts : Opts
  info : TypeId → TypeInfo
  size : TypeId → Nat
  align : TypeId → Nat
  interface_names : List (Nat × InterfaceName)
  current_interface : Option (Nat × WorldKey × Bool)
  fuel : Nat

/-- `InterfaceGenerator::path_to_interface` (lib.rs lines 2544-2565). -/
def path_to_interface (ig : IG) (interface : Nat) : Option String :=
  let root :=
    match ig.current_interface with
    | some (cur, key, is_export) =>
      if cur = interface then none
      else
        let p :=
          match key with
          | .Name _ => "super::"
          | .Interface _ => "super::super::super::"
        some (if is_export then p ++ "super::" else p)
    | none => some ""
  match root with
  | none => none
  | some path_to_root =>
    let entry := (assoc_get ig.interface_names interface).getD ⟨false, ""⟩
    some (path_to_root ++ entry.path)

/-- The `RustGenerator` trait view of an `InterfaceGenerator` (the trait
impl, lib.rs lines 2535-2574). -/
def rg_of (ig : IG) : RG :=
  { types := ig.resolve.types
    info := ig.info
    ownership := ig.opts.ownership
    path_to_interface := fun i => path_to_interface ig i }

mutual

/-- `InterfaceGenerator::get_resource_from_tyid` (lib.rs lines 1688-1745):
all resources reachable from a type id, as `(name, owner)` pairs. -/
def get_resource_from_tyid (ig : IG) (fuel : Nat) (id : TypeId) :
    List (String × TypeOwner) :=
  match fuel with
  | 0 => []
  | fuel + 1 =>
    let ty := ig.resolve.types id
    match ty.kind with
    | .Resource => [(ty.name.getD "", ty.owner)]
    | .Handle (.own hid) => get_resource_from_tyid ig fuel hid
    | .Handle (.borrow hid) => get_resource_from_tyid ig fuel hid
    | .Tuple t => get_resource_from_ty_list ig fuel t.types
    | .Opt ty => get_resource_from_ty ig fuel ty
    | .Res r =>
      (match r.ok with
       | some ty => get_resource_from_ty ig fuel ty
       | none => [])
      ++ (match r.err with
          | some ty => get_resource_from_ty ig fuel ty
          | none => [])
    | .List ty => get_resource_from_ty ig fuel ty
    | .Future f =>
      match f with
      | some ty => get_resource_from_ty ig fuel ty
      | none => []
    | .Stream s e =>
      (match s with
       | some ty => get_resource_from_ty ig fuel ty
       | none => [])
      ++ (match e with
          | some ty => get_resource_from_ty ig fuel ty
          | none => [])
    | .Typ ty => get_resource_from_ty ig fuel ty
    | _ => []
termination_by structural fuel

/-- The tuple-member loop of `get_resource_from_tyid` (lib.rs lines
1703-1707). -/
def get_resource_from_ty_list (ig : IG) (fuel : Nat) (tys : List WType) :
    List (String × TypeOwner) :=
  match fuel with
  | 0 => []
  | fuel + 1 =>
    match tys with
    | [] => []
    | t :: ts => get_resource_from_ty ig fuel t ++ get_resource_from_ty_list ig fuel ts
termination_by structural fuel

/-- `InterfaceGenerator::get_resource_from_ty` (lib.rs lines 1747-1769). -/
def get_resource_from_ty (ig : IG) (fuel : Nat) (ty : WType) :
    List (String × TypeOwner) :=
  match fuel with
  | 0 => []
  | fuel + 1 =>
    match ty with
    | .id id => get_resource_from_tyid ig fuel id
    | _ => []
termination_by structural fuel

end

/-- Rust's ASCII whitespace test, for `str::trim` (Unicode whitespace
beyond ASCII is not modelled). -/
def is_rust_ws (c : Char) : Bool :=
  c = ' ' || c = '\t' || c = '\n' || c = '\r'

/-- Rust's `str::trim` on ASCII text. -/
def rust_trim (s : String) : String :=
  String.mk (((s.data.dropWhile is_rust_ws).reverse.dropWhile is_rust_ws).reverse)

/-- Character-level worker for `rust_lines`: split at `\n`. -/
def lines_aux (acc : List Char) : List Char → List String
  | [] => if acc.isEmpty then [] else [String.mk acc.reverse]
  | c :: cs =>
    if c = '\n' then String.mk acc.reverse :: lines_aux [] cs
    else lines_aux (c :: acc) cs

/-- Rust's `str::lines` (for `\n`-separated text; `\r\n` is not modelled). -/
def rust_lines (s : String) : List String :=
  lines_aux [] s.data

/-- `InterfaceGenerator::rustdoc` (lib.rs lines 2522-2532). -/
def rustdoc (docs : Docs) : String :=
  match docs.contents with
  | Option.none => ""
  | some d => emit_each (rust_lines (rust_trim d)) (fun line => "/// " ++ line ++ "\n")

/-- `InterfaceGenerator::trappable_error_types` (lib.rs lines 2437-2471):
the configured trappable-error mappings that apply to `owner`, resolved to
`(type id, generated Rust name)`.  The `TypeOwner::World` arm is the
source's `unimplemented!()` and yields nothing. -/
def trappable_error_types (ig : IG) (owner : TypeOwner) : List (TypeId × String) :=
  ig.opts.trappable_error_type.filterMap (fun trappable =>
    let owner_ok : Option Unit :=
      match trappable.wit_owner with
      | Option.none => some ()
      | some name =>
        let owner_name? : Option String :=
          match owner with
          | .Interface id => (ig.resolve.interfaces id).name
          | .World id => some (ig.resolve.worlds id).name
          | .None => Option.none
        match owner_name? with
        | Option.none => Option.none
        | some owner_name => if owner_name ≠ name then Option.none else some ()
    match owner_ok with
    | Option.none => Option.none
    | some _ =>
      match owner with
      | .Interface id =>
        (assoc_get (ig.resolve.interfaces id).types trappable.wit_name).map
          (fun tid => (tid, trappable.rust_name))
      | .World _ => Option.none
      | .None => Option.none)

/-- `InterfaceGenerator::special_case_trappable_error` (lib.rs lines
1337-1365): a function's results trigger the trappable-error special case
when they are exactly one `result<_, E>` whose `E` resolves to a
configured mapping. -/
def special_case_trappable_error (ig : IG) (owner : TypeOwner)
    (results : Results) : Option (WResult × String) :=
  match results.iter_types with
  | [WType.id id] =>
    match (ig.resolve.types id).kind with
    | .Res r =>
      match r.err with
      | some (WType.id eid) =>
        let error_typeid := resolve_type_definition_id ig.resolve ig.fuel eid
        ((trappable_error_types ig owner).find? (fun p => p.1 = error_typeid)).map
          (fun p => (r, p.2))
      | _ => Option.none
    | _ => Option.none
  | _ => Option.none

/-- `InterfaceGenerator::print_result_ty_` (lib.rs lines 1314-1335). -/
def print_result_ty_ (g : RG) (fuel : Nat) (results : Results) (mode : TypeMode) : String :=
  match results with
  | .Named rs =>
    match rs with
    | [] => "()"
    | [r] => print_ty_ g fuel r.2 mode
    | _ =>
      "(" ++ String.intercalate ", " (rs.map (fun p => print_ty_ g fuel p.2 mode)) ++ ")"
  | .Anon t => print_ty_ g fuel t mode

/-- `InterfaceGenerator::generate_function_trait_sig` (lib.rs lines
1937-1978): the `Host` trait method signature for a freestanding import. -/
def generate_function_trait_sig (ig : IG) (owner : TypeOwner) (func : Function) : String :=
  let g := rg_of ig
  rustdoc func.docs
  ++ (if ig.opts.async_ then "async " else "")
  ++ "fn " ++ to_rust_ident func.name ++ "(&mut self, "
  ++ emit_each func.params (fun p =>
       to_rust_ident p.1 ++ ": " ++ print_ty_ g ig.fuel p.2 TypeMode.Owned ++ ",")
  ++ ")" ++ " -> "
  ++ (match special_case_trappable_error ig owner func.results with
      | some (r, error_typename) =>
        "Result<"
        ++ (match r.ok with
            | some ok => print_ty_ g ig.fuel ok TypeMode.Owned
            | Option.none => "()")
        ++ "," ++ error_typename ++ ">"
      | Option.none =>
        "wasmtime::Result<" ++ print_result_ty_ g ig.fuel func.results TypeMode.Owned ++ ">")
  ++ ";\n"

/-- `generate_guest_export_resource_function_trait_sig` (lib.rs lines
1771-1850).  The `params` map the source computes on lines 1800-1806 is
never used for emission and is not modelled. -/
def generate_guest_export_resource_function_trait_sig (ig : IG) (owner : TypeOwner)
    (func : Function) : String :=
  let g := rg_of ig
  rustdoc func.docs
  ++ (if ig.opts.async_ then "async " else "")
  ++ "fn "
  ++ (match func.kind with
      | .Freestanding | .Method _ | .Static _ => to_rust_ident func.name
      | .Constructor _ => "new")
  ++ "<S: wasmtime::AsContextMut>("
  ++ (match func.kind with
      | .Method _ | .Static _ => "&self, "
      | _ => "")
  ++ "store: S, "
  ++ (match func.kind with
      | .Freestanding | .Constructor _ => "instance: &wasmtime::component::Instance, "
      | _ => "")
  ++ ")" ++ " -> "
  ++ (match special_case_trappable_error ig owner func.results with
      | some (r, error_typename) =>
        "Result<"
        ++ (match r.ok with
            | some ok =>
              match func.kind with
              | .Freestanding | .Method _ | .Static _ =>
                print_ty_ g ig.fuel ok TypeMode.Owned
              | .Constructor _ => "Self"
            | Option.none => "()")
        ++ "," ++ error_typename ++ ">"
      | Option.none =>
        "wasmtime::Result<"
        ++ (match func.kind with
            | .Freestanding | .Method _ | .Static _ =>
              print_result_ty_ g ig.fuel func.results TypeMode.Owned
            | .Constructor _ => "Self")
        ++ "> where Self: Sized")
  ++ ";\n"

/-- `generate_guest_import_resource_function_trait_sig` (lib.rs lines
1852-1935).  The `params` map computed on lines 1874-1880 is never used
for emission and is not modelled. -/
def generate_guest_import_resource_function_trait_sig (ig : IG) (owner : TypeOwner)
    (func : Function) : String :=
  let g := rg_of ig
  rustdoc func.docs
  ++ (if ig.opts.async_ then "async " else "")
  ++ "fn "
  ++ (match func.kind with
      | .Freestanding | .Method _ | .Static _ => to_rust_ident func.name
      | .Constructor _ => "new")
  ++ "("
  ++ (match func.kind with
      | .Method _ | .Static _ => "&self, "
      | _ => "")
  ++ emit_each func.params (fun p =>
       let name := to_rust_ident p.1
       if name ≠ "self_" then
         name ++ ": " ++ print_ty_ g ig.fuel p.2 TypeMode.Owned ++ ","
       else "")
  ++ ")" ++ " -> "
  ++ (match special_case_trappable_error ig owner func.results with
      | some (r, error_typename) =>
        "Result<"
        ++ (match r.ok with
            | some ok =>
              match func.kind with
              | .Freestanding | .Method _ | .Static _ =>
                print_ty_ g ig.fuel ok TypeMode.Owned
              | .Constructor _ => "Self"
            | Option.none => "()")
        ++ "," ++ error_typename ++ ">"
      | Option.none =>
        "wasmtime::Result<"
        ++ (match func.kind with
            | .Freestanding | .Method _ | .Static _ =>
              print_result_ty_ g ig.fuel func.results TypeMode.Owned
            | .Constructor _ => "Self")
        ++ "> where Self: Sized")
  ++ ";\n"

/-- `InterfaceGenerator::extract_typed_function` (lib.rs lines 1980-2000):
the `(field name, extraction expression)` pair for one export. -/
def extract_typed_function (ig : IG) (func : Function) : String × String :=
  let g := rg_of ig
  let snake := to_snake_case func.name
  let getter :=
    "*__exports.typed_func::<("
    ++ emit_each func.params (fun p =>
         print_ty_ g ig.fuel p.2 (TypeMode.AllBorrowed "\x27_") ++ ", ")
    ++ "), ("
    ++ emit_each func.results.iter_types (fun ty =>
         print_ty_ g ig.fuel ty TypeMode.Owned ++ ", ")
    ++ ")>(\"" ++ func.name ++ "\")?.func()"
  (snake, getter)

/-! ### The Type Definition Emitter (lib.rs `define_type` and friends) -/

/-- `InterfaceGenerator::assert_type` (lib.rs lines 889-902): the
compile-time size/alignment double-check tying the emitted representation
to the schema layout-sizing pass. -/
def assert_type (ig : IG) (id : TypeId) (name : String) : String :=
  "const _: () = \x7b\n"
  ++ "assert!(" ++ toString (ig.size id) ++ " == <" ++ name
    ++ " as wasmtime::component::ComponentType>::SIZE32);\n"
  ++ "assert!(" ++ toString (ig.align id) ++ " == <" ++ name
    ++ " as wasmtime::component::ComponentType>::ALIGN32);\n"
  ++ "\x7d;\n"

/-- `InterfaceGenerator::type_record` (lib.rs lines 736-808). -/
def type_record (ig : IG) (id : TypeId) (_name : String) (record : WRecord)
    (docs : Docs) : String :=
  let g := rg_of ig
  let info := ig.info id
  emit_each (modes_of g id) (fun p =>
    let name := p.1
    let mode := p.2
    let lt := lifetime_for g info mode
    rustdoc docs
    ++ "#[derive(wasmtime::component::ComponentType)]\n"
    ++ (if lt.isNone then "#[derive(wasmtime::component::Lift)]\n" else "")
    ++ "#[derive(wasmtime::component::Lower)]\n"
    ++ "#[component(record)]\n"
    ++ (if !info.has_list then "#[derive(Copy, Clone)]\n" else "#[derive(Clone)]\n")
    ++ "pub struct " ++ name
    ++ print_generics lt
    ++ " \x7b\n"
    ++ emit_each record.fields (fun field =>
         rustdoc field.docs
         ++ "#[component(name = \"" ++ field.name ++ "\")]\n"
         ++ "pub " ++ to_rust_ident field.name ++ ": "
         ++ print_ty_ g ig.fuel field.ty mode ++ ",\n")
    ++ "\x7d\n"
    ++ "impl" ++ print_generics lt ++ " core::fmt::Debug for " ++ name
    ++ print_generics lt ++ " \x7b\n"
    ++ "fn fmt(&self, f: &mut core::fmt::Formatter<\x27_>) -> core::fmt::Result \x7b\n"
    ++ "f.debug_struct(\"" ++ name ++ "\")"
    ++ emit_each record.fields (fun field =>
         ".field(\"" ++ field.name ++ "\", &self." ++ to_rust_ident field.name ++ ")")
    ++ ".finish()\n"
    ++ "\x7d\n"
    ++ "\x7d\n"
    ++ (if info.error then
          "impl" ++ print_generics lt ++ " core::fmt::Display for " ++ name
          ++ print_generics lt ++ " \x7b\n"
          ++ "fn fmt(&self, f: &mut core::fmt::Formatter<\x27_>) -> core::fmt::Result \x7b\n"
          ++ "write!(f, \"\x7b:?\x7d\", self)\n"
          ++ "\x7d\n"
          ++ "\x7d\n"
          ++ "impl std::error::Error for " ++ name ++ "\x7b\x7d\n"
        else "")
    ++ assert_type ig id name)

/-- `InterfaceGenerator::type_tuple` (lib.rs lines 810-825). -/
def type_tuple (ig : IG) (id : TypeId) (_name : String) (tuple : WTuple)
    (docs : Docs) : String :=
  let g := rg_of ig
  let info := ig.info id
  emit_each (modes_of g id) (fun p =>
    let name := p.1
    let mode := p.2
    let lt := lifetime_for g info mode
    rustdoc docs
    ++ "pub type " ++ name
    ++ print_generics lt
    ++ " = ("
    ++ emit_each tuple.types (fun ty => print_ty_ g ig.fuel ty mode ++ ",")
    ++ ");\n"
    ++ assert_type ig id name)

/-- `InterfaceGenerator::type_flags` (lib.rs lines 827-844). -/
def type_flags (ig : IG) (id : TypeId) (name : String) (flags : WFlags)
    (docs : Docs) : String :=
  let rust_name := to_rust_upper_camel_case name
  rustdoc docs
  ++ "wasmtime::component::flags!(\n"
  ++ rust_name ++ " \x7b\n"
  ++ emit_each flags.flags (fun flag =>
       "#[component(name=\"" ++ flag.name ++ "\")] const "
       ++ to_shouty_snake_case flag.name ++ ";\n")
  ++ "\x7d\n"
  ++ ");\n\n"
  ++ assert_type ig id rust_name

/-- `InterfaceGenerator::print_rust_enum_debug` (lib.rs lines 986-1023). -/
def print_rust_enum_debug (ig : IG) (id : TypeId) (mode : TypeMode) (name : String)
    (cases : List (String × Option WType)) : String :=
  let g := rg_of ig
  let info := ig.info id
  let lt := lifetime_for g info mode
  "impl" ++ print_generics lt ++ " core::fmt::Debug for " ++ name
  ++ print_generics lt ++ " \x7b\n"
  ++ "fn fmt(&self, f: &mut core::fmt::Formatter<\x27_>) -> core::fmt::Result \x7b\n"
  ++ "match self \x7b\n"
  ++ emit_each cases (fun c =>
       name ++ "::" ++ c.1
       ++ (if c.2.isSome then "(e)" else "")
       ++ " => \x7b\n"
       ++ "f.debug_tuple(\"" ++ name ++ "::" ++ c.1 ++ "\")"
       ++ (if c.2.isSome then ".field(e)" else "")
       ++ ".finish()\n"
       ++ "\x7d\n")
  ++ "\x7d\n"
  ++ "\x7d\n"
  ++ "\x7d\n"

/-- `InterfaceGenerator::print_rust_enum` (lib.rs lines 904-984): shared
emitter for variants and unions.  A case is `(case name, component
attribute name, docs, payload)`. -/
def print_rust_enum (ig : IG) (id : TypeId)
    (cases : List (String × Option String × Docs × Option WType))
    (docs : Docs) (derive_component : String) : String :=
  let g := rg_of ig
  let info := ig.info id
  emit_each (modes_of g id) (fun p =>
    let name := to_rust_upper_camel_case p.1
    let mode := p.2
    let lt := lifetime_for g info mode
    rustdoc docs
    ++ "#[derive(wasmtime::component::ComponentType)]\n"
    ++ (if lt.isNone then "#[derive(wasmtime::component::Lift)]\n" else "")
    ++ "#[derive(wasmtime::component::Lower)]\n"
    ++ "#[component(" ++ derive_component ++ ")]\n"
    ++ (if !info.has_list then "#[derive(Clone, Copy)]\n" else "#[derive(Clone)]\n")
    ++ "pub enum " ++ name
    ++ print_generics lt
    ++ "\x7b\n"
    ++ emit_each cases (fun c =>
         let (case_name, component_name, cdocs, payload) := c
         rustdoc cdocs
         ++ (match component_name with
             | some n => "#[component(name = \"" ++ n ++ "\")] "
             | Option.none => "")
         ++ case_name
         ++ (match payload with
             | some ty => "(" ++ print_ty_ g ig.fuel ty mode ++ ")"
             | Option.none => "")
         ++ ",\n")
    ++ "\x7d\n"
    ++ print_rust_enum_debug ig id mode name
         (cases.map (fun c => (c.1, c.2.2.2)))
    ++ (if info.error then
          "impl" ++ print_generics lt ++ " core::fmt::Display for " ++ name
          ++ print_generics lt ++ " \x7b\n"
          ++ "fn fmt(&self, f: &mut core::fmt::Formatter<\x27_>) -> core::fmt::Result \x7b\n"
          ++ "write!(f, \"\x7b:?\x7d\", self)"
          ++ "\x7d\n"
          ++ "\x7d\n"
          ++ "\n"
          ++ "impl" ++ print_generics lt ++ " std::error::Error for " ++ name
          ++ print_generics lt ++ " \x7b\x7d\n"
        else "")
    ++ assert_type ig id name)

/-- `InterfaceGenerator::type_variant` (lib.rs lines 846-860). -/
def type_variant (ig : IG) (id : TypeId) (_name : String) (variant : WVariant)
    (docs : Docs) : String :=
  print_rust_enum ig id
    (variant.cases.map (fun c =>
      (to_upper_camel_case c.name, some c.name, c.docs, c.ty)))
    docs "variant"

/-- `InterfaceGenerator::type_union` (lib.rs lines 862-870). -/
def type_union (ig : IG) (id : TypeId) (_name : String) (union : WUnion)
    (docs : Docs) : String :=
  print_rust_enum ig id
    ((List.zip (union_case_names (rg_of ig) ig.fuel union) union.cases).map
      (fun p => (p.1, Option.none, p.2.docs, some p.2.ty)))
    docs "union"

/-- `InterfaceGenerator::type_option` (lib.rs lines 872-885). -/
def type_option (ig : IG) (id : TypeId) (_name : String) (payload : WType)
    (docs : Docs) : String :=
  let g := rg_of ig
  let info := ig.info id
  emit_each (modes_of g id) (fun p =>
    let name := p.1
    let mode := p.2
    let lt := lifetime_for g info mode
    rustdoc docs
    ++ "pub type " ++ name
    ++ print_generics lt
    ++ "= Option<"
    ++ print_ty_ g ig.fuel payload mode
    ++ ">;\n"
    ++ assert_type ig id name)

/-- `InterfaceGenerator::type_result` (lib.rs lines 1025-1040). -/
def type_result (ig : IG) (id : TypeId) (_name : String) (result : WResult)
    (docs : Docs) : String :=
  let g := rg_of ig
  let info := ig.info id
  emit_each (modes_of g id) (fun p =>
    let name := p.1
    let mode := p.2
    let lt := lifetime_for g info mode
    rustdoc docs
    ++ "pub type " ++ name
    ++ print_generics lt
    ++ "= Result<"
    ++ print_optional_ty_ g ig.fuel result.ok mode
    ++ ","
    ++ print_optional_ty_ g ig.fuel result.err mode
    ++ ">;\n"
    ++ assert_type ig id name)

/-- `InterfaceGenerator::type_enum` (lib.rs lines 1042-1137). -/
def type_enum (ig : IG) (id : TypeId) (name : String) (enum_ : WEnum)
    (docs : Docs) : String :=
  let info := ig.info id
  let name := to_rust_upper_camel_case name
  rustdoc docs
  ++ "#[derive(wasmtime::component::ComponentType)]\n"
  ++ "#[derive(wasmtime::component::Lift)]\n"
  ++ "#[derive(wasmtime::component::Lower)]\n"
  ++ "#[component(enum)]\n"
  ++ "#[derive(Clone, Copy, PartialEq, Eq)]\n"
  ++ "pub enum " ++ name ++ " \x7b\n"
  ++ emit_each enum_.cases (fun case =>
       rustdoc case.docs
       ++ "#[component(name = \"" ++ case.name ++ "\")]"
       ++ to_upper_camel_case case.name
       ++ ",\n")
  ++ "\x7d\n"
  ++ (if info.error then
        "impl " ++ name ++ "\x7b\n"
        ++ "pub fn name(&self) -> &\x27static str \x7b\n"
        ++ "match self \x7b\n"
        ++ emit_each enum_.cases (fun case =>
             name ++ "::" ++ to_upper_camel_case case.name
             ++ " => \"" ++ case.name ++ "\",\n")
        ++ "\x7d\n"
        ++ "\x7d\n"
        ++ "pub fn message(&self) -> &\x27static str \x7b\n"
        ++ "match self \x7b\n"
        ++ emit_each enum_.cases (fun case =>
             name ++ "::" ++ to_upper_camel_case case.name
             ++ " => \""
             ++ (match case.docs.contents with
                 | some contents => rust_trim contents
                 | Option.none => "")
             ++ "\",\n")
        ++ "\x7d\n"
        ++ "\x7d\n"
        ++ "\x7d\n"
        ++ "impl core::fmt::Debug for " ++ name
        ++ "\x7b\nfn fmt(&self, f: &mut core::fmt::Formatter<\x27_>) -> core::fmt::Result \x7b\n"
        ++ "f.debug_struct(\"" ++ name ++ "\")\n"
        ++ ".field(\"code\", &(*self as i32))\n"
        ++ ".field(\"name\", &self.name())\n"
        ++ ".field(\"message\", &self.message())\n"
        ++ ".finish()\n"
        ++ "\x7d\n"
        ++ "\x7d\n"
        ++ "impl core::fmt::Display for " ++ name
        ++ "\x7b\nfn fmt(&self, f: &mut core::fmt::Formatter<\x27_>) -> core::fmt::Result \x7b\n"
        ++ "write!(f, \"\x7b\x7d (error \x7b\x7d)\", self.name(), *self as i32)"
        ++ "\x7d\n"
        ++ "\x7d\n"
        ++ "\n"
        ++ "impl std::error::Error for " ++ name ++ "\x7b\x7d\n"
      else
        print_rust_enum_debug ig id TypeMode.Owned name
          (enum_.cases.map (fun c => (to_upper_camel_case c.name, Option.none))))
  ++ assert_type ig id name

/-- `InterfaceGenerator::type_alias` (lib.rs lines 1139-1160): a named
alias is re-emitted as a `pub type` with assertions unless it resolves to a
resource, in which case only a `use` re-export is emitted. -/
def type_alias (ig : IG) (id : TypeId) (_name : String) (ty : WType)
    (docs : Docs) : String :=
  let g := rg_of ig
  let info := ig.info id
  emit_each (modes_of g id) (fun p =>
    let name := p.1
    let mode := p.2
    let resource := get_resource_from_ty ig ig.fuel ty
    rustdoc docs
    ++ (if resource.isEmpty then
          "pub type " ++ name
          ++ print_generics (lifetime_for g info mode)
          ++ " = "
          ++ print_ty_ g ig.fuel ty mode
          ++ ";\n"
          ++ assert_type ig id name
        else
          "use "
          ++ print_ty_ g ig.fuel ty mode
          ++ ";\n"))

/-- `InterfaceGenerator::type_list` (lib.rs lines 1162-1174). -/
def type_list (ig : IG) (id : TypeId) (_name : String) (ty : WType)
    (docs : Docs) : String :=
  let g := rg_of ig
  let info := ig.info id
  emit_each (modes_of g id) (fun p =>
    let name := p.1
    let mode := p.2
    let lt := lifetime_for g info mode
    rustdoc docs
    ++ "pub type " ++ name
    ++ print_generics lt
    ++ " = "
    ++ print_list_ g ig.fuel ty mode
    ++ ";\n"
    ++ assert_type ig id name)

/-- `InterfaceGenerator::type_handle` (lib.rs lines 1176-1194). -/
def type_handle (ig : IG) (id : TypeId) (_name : String) (h : WHandle)
    (docs : Docs) : String :=
  let g := rg_of ig
  let info := ig.info id
  emit_each (modes_of g id) (fun p =>
    let name := p.1
    let mode := p.2
    let lt := lifetime_for g info mode
    rustdoc docs
    ++ "pub type " ++ name
    ++ print_generics lt
    ++ " = "
    ++ (match h with
        | .own hid => print_tyid_ g ig.fuel hid mode
        | .borrow hid => print_tyid_ g ig.fuel hid mode)
    ++ ";\n"
    ++ assert_type ig id name)

/-- The tracing span template of the export path (lib.rs lines 2074-2091
and 2343-2360), with template indentation normalized. -/
def export_span (ns : String) (fname : String) : String :=
  "\nlet span = tracing::span!(\n"
  ++ "tracing::Level::TRACE,\n"
  ++ "\"wit-bindgen export\",\n"
  ++ "module = \"" ++ ns ++ "\",\n"
  ++ "function = \"" ++ fname ++ "\",\n"
  ++ ");\n"
  ++ "let _enter = span.enter();\n"

/-- `define_rust_guest_export_resource_representation` (lib.rs lines
2002-2250): one method of the `impl {Camel} for Rep{Camel}` block.
The source unwraps `current_interface` in the constructor arm; the
embedding defaults it.  Template indentation normalized. -/
def define_rust_guest_export_resource_representation (ig : IG)
    (ns : Option WorldKey) (func : Function) (iface : Interface) : String :=
  let g := rg_of ig
  let async_ := if ig.opts.async_ then "async" else ""
  let async__ := if ig.opts.async_ then "_async" else ""
  let await_ := if ig.opts.async_ then ".await" else ""
  let snake := to_snake_case func.name
  let fields : List String :=
    match func.kind with
    | .Freestanding | .Method _ | .Static _ => []
    | .Constructor _ =>
      (iface.functions.filterMap (fun p =>
        match p.2.kind with
        | .Freestanding => Option.none
        | _ => some (extract_typed_function ig p.2).1))
  let extractions : String :=
    match func.kind with
    | .Freestanding | .Method _ | .Static _ => ""
    | .Constructor _ =>
      let cur := ig.current_interface.getD (0, WorldKey.Name "", false)
      let name := ig.resolve.name_world_key cur.2.1
      "\nlet mut exports = instance.exports(store.as_context_mut());\n"
      ++ "let mut __exports = exports.instance(\"" ++ name ++ "\")\n"
      ++ ".ok_or_else(|| anyhow::anyhow!(\"exported instance `" ++ name
      ++ "` not present\"))?;\n"
      ++ emit_each (iface.functions.filterMap (fun p =>
           match p.2.kind with
           | .Freestanding => Option.none
           | _ => some (extract_typed_function ig p.2)))
           (fun e => "let " ++ e.1 ++ " = " ++ e.2 ++ ";\n")
  rustdoc func.docs
  ++ (match func.kind with
      | .Freestanding => ""
      | .Method _ | .Static _ =>
        async_ ++ " fn " ++ snake ++ "<S: wasmtime::AsContextMut>("
        ++ "&self, mut store: S, "
        ++ emit_each (func.params.drop 1).enum (fun p =>
             "arg" ++ toString p.1 ++ ": "
             ++ print_ty_ g ig.fuel p.2.2 (TypeMode.AllBorrowed "\x27_") ++ ",")
        ++ ") -> wasmtime::Result<"
        ++ print_result_ty_ g ig.fuel func.results TypeMode.Owned
      | .Constructor _ =>
        async_ ++ " fn new<S: wasmtime::AsContextMut>(mut store: S, "
        ++ "instance: &wasmtime::component::Instance, "
        ++ emit_each func.params.enum (fun p =>
             "arg" ++ toString p.1 ++ ": "
             ++ print_ty_ g ig.fuel p.2.2 (TypeMode.AllBorrowed "\x27_") ++ ",")
        ++ ") -> wasmtime::Result<Self")
  ++ (if ig.opts.async_ then
        "> where <S as wasmtime::AsContext>::Data: Send, Self: Sized\x7b\n"
      else "> \x7b\n")
  ++ (if ig.opts.tracing then
        export_span
          (match ns with
           | some key => ig.resolve.name_world_key key
           | Option.none => "default")
          func.name
      else "")
  ++ (let names :=
        match func.kind with
        | .Method _ | .Static _ => String.intercalate ", " (fields.drop 1)
        | _ => String.intercalate ", " fields
      "\nlet (" ++ names ++ ") = \x7b\n" ++ extractions ++ "\n(" ++ names
      ++ ")\n\x7d;\n")
  ++ "let callee = unsafe \x7b\n"
  ++ "wasmtime::component::TypedFunc::<("
  ++ emit_each func.params (fun p =>
       print_ty_ g ig.fuel p.2 (TypeMode.AllBorrowed "\x27_") ++ ", ")
  ++ "), ("
  ++ emit_each func.results.iter_types (fun ty =>
       print_ty_ g ig.fuel ty TypeMode.Owned ++ ", ")
  ++ (match func.kind with
      | .Constructor _ => ")>::new_unchecked(" ++ snake ++ ")\n"
      | _ => ")>::new_unchecked(self." ++ snake ++ ")\n")
  ++ "\x7d;\n"
  ++ "let ("
  ++ emit_each func.results.iter_types.enum (fun p => "ret" ++ toString p.1 ++ ",")
  ++ (match func.kind with
      | .Constructor _ =>
        ") = callee.call" ++ async__ ++ "(store.as_context_mut(), ("
        ++ emit_each func.params.enum (fun p => "arg" ++ toString p.1 ++ ", ")
        ++ "))" ++ await_ ++ "?;\n"
        ++ "callee.post_return" ++ async__ ++ "(store.as_context_mut())" ++ await_ ++ "?;\n"
        ++ "Ok(Self \x7b\n"
        ++ "handle: ret0,\n"
        ++ emit_each fields (fun name => name ++ ",\n")
        ++ "\x7d)\n"
      | _ =>
        ") = callee.call" ++ async__ ++ "(store.as_context_mut(), ("
        ++ (match func.kind with
            | .Method _ => "self.to_handle(), "
            | _ => "")
        ++ emit_each (func.params.drop 1).enum (fun p => "arg" ++ toString p.1 ++ ", ")
        ++ "))" ++ await_ ++ "?;\n"
        ++ "callee.post_return" ++ async__ ++ "(store.as_context_mut())" ++ await_ ++ "?;\n"
        ++ "Ok("
        ++ (if func.results.iter_types.length = 1 then "ret0"
            else
              "("
              ++ emit_each func.results.iter_types.enum
                   (fun p => "ret" ++ toString p.1 ++ ",")
              ++ ")")
        ++ ")\n")
  ++ "\x7d\n"

/-- `InterfaceGenerator::type_resource` (lib.rs lines 1196-1308).  The
`todo!()` / `panic!` arms for non-interface owners are modelled by their
message text. -/
def type_resource (ig : IG) (dir : Direction) (id : TypeId) (name : String)
    (docs : Docs) : String :=
  let owner := (ig.resolve.types id).owner
  let camel := to_upper_camel_case name
  rustdoc docs
  ++ (if ig.opts.async_ then "#[wasmtime::component::__internal::async_trait]\n" else "")
  ++ "pub trait " ++ camel ++ " \x7b\n"
  ++ (match owner with
      | .World _ => "not yet implemented"
      | .None => "A resource must be owned by a world or interface"
      | .Interface interface =>
        let iface := ig.resolve.interfaces interface
        emit_each iface.functions (fun p =>
          match p.2.kind with
          | .Method resource | .Static resource | .Constructor resource =>
            if id = resource then
              match dir with
              | .Export => generate_guest_export_resource_function_trait_sig ig owner p.2
              | .Import => generate_guest_import_resource_function_trait_sig ig owner p.2
            else ""
          | .Freestanding => "")
        ++ "\x7d\n"
        ++ (if dir = Direction.Import then ""
            else
              "use wasmtime::component::ToHandle;\n"
              ++ "pub struct Rep" ++ camel ++ " \x7b\n"
              ++ "pub handle: wasmtime::component::ResourceAny,\n"
              ++ emit_each iface.functions (fun p =>
                   match p.2.kind with
                   | .Method resource | .Static resource | .Constructor resource =>
                     if id = resource then
                       to_snake_case p.2.name ++ ": wasmtime::component::Func,\n"
                     else ""
                   | .Freestanding => "")
              ++ "\x7d\n"
              ++ "\nimpl wasmtime::component::ToHandle for Rep" ++ camel ++ " \x7b\n"
              ++ "fn to_handle(&self) -> wasmtime::component::ResourceAny \x7b\n"
              ++ "self.handle\n"
              ++ "\x7d\n"
              ++ "\x7d\n"
              ++ (if ig.opts.async_ then
                    "#[wasmtime::component::__internal::async_trait]\n"
                  else "")
              ++ "impl " ++ camel ++ " for Rep" ++ camel ++ " \x7b\n"
              ++ emit_each iface.functions (fun p =>
                   match p.2.kind with
                   | .Method resource | .Static resource | .Constructor resource =>
                     if id = resource then
                       define_rust_guest_export_resource_representation ig
                         Option.none p.2 iface
                     else ""
                   | .Freestanding => "")
              ++ "\x7d\n"))

/-- `InterfaceGenerator::define_type` (lib.rs lines 715-734).  The
`todo!()` arms for futures and streams are modelled by their message
text. -/
def define_type (ig : IG) (dir : Direction) (name : String) (id : TypeId) : String :=
  let ty := ig.resolve.types id
  match ty.kind with
  | .Record record => type_record ig id name record ty.docs
  | .Flags flags => type_flags ig id name flags ty.docs
  | .Tuple tuple => type_tuple ig id name tuple ty.docs
  | .Enum enum_ => type_enum ig id name enum_ ty.docs
  | .Variant variant => type_variant ig id name variant ty.docs
  | .Opt t => type_option ig id name t ty.docs
  | .Res r => type_result ig id name r ty.docs
  | .Union u => type_union ig id name u ty.docs
  | .List t => type_list ig id name t ty.docs
  | .Typ t => type_alias ig id name t ty.docs
  | .Future _ => "generate for future"
  | .Stream _ _ => "generate for stream"
  | .Handle h => type_handle ig id name h ty.docs
  | .Resource => type_resource ig dir id name ty.docs
  | .Unknown => "unreachable"

/-- `InterfaceGenerator::types` (lib.rs lines 709-713): emit every type of
an interface. -/
def ig_types (ig : IG) (dir : Direction) (id : Nat) : String :=
  emit_each (ig.resolve.interfaces id).types (fun p => define_type ig dir p.1 p.2)

/-! ### The Import Binding Generator (lib.rs guest-import closures) -/

/-- The dispatch `match` emitted for trappable-error functions
(lib.rs lines 1656-1665), template indentation normalized:
result `Ok(a)` becomes `Ok((Ok(a),))`, a successful downcast becomes a
guest-visible `Ok((Err(api_error),))`, and a failed downcast propagates
the aborting `anyhow` error. -/
def trappable_dispatch_snippet : String :=
  "match r \x7b\n"
  ++ "Ok(a) => Ok((Ok(a),)),\n"
  ++ "Err(e) => match e.downcast() \x7b\n"
  ++ "Ok(api_error) => Ok((Err(api_error),)),\n"
  ++ "Err(anyhow_error) => Err(anyhow_error),\n"
  ++ "\x7d\n"
  ++ "\x7d"

/-- The tracing span template of the import path (lib.rs lines 1534-1554),
indentation normalized. -/
def import_span (module : String) (fname : String) : String :=
  "\nlet span = tracing::span!(\n"
  ++ "tracing::Level::TRACE,\n"
  ++ "\"wit-bindgen import\",\n"
  ++ "module = \"" ++ module ++ "\",\n"
  ++ "function = \"" ++ fname ++ "\",\n"
  ++ ");\n"
  ++ "let _enter = span.enter();\n"

/-- `InterfaceGenerator::generate_guest_import_closure` (lib.rs lines
1488-1686): the closure registered with the `Linker` that dispatches an
incoming guest call into host code.  `expect` failures (missing resource
implementations) are modelled by their message text. -/
def generate_guest_import_closure (ig : IG) (owner : TypeOwner) (func : Function) : String :=
  let g := rg_of ig
  let func_name := to_snake_case func.name
  "move |mut caller: wasmtime::StoreContextMut<\x27_, T>, ("
  ++ emit_each func.params.enum (fun p => "arg" ++ toString p.1 ++ ",")
  ++ ") : ("
  ++ emit_each func.params (fun param =>
       (match get_resource_from_ty ig ig.fuel param.2 with
        | (resource_name, resource_owner) :: _ =>
          if resource_owner = owner then
            "wasmtime::component::Resource<"
            ++ ((assoc_get ig.opts.resources resource_name).getD
                  ("resource `" ++ resource_name ++ "` doesn't have an implementation"))
            ++ ">"
          else
            print_ty_ g ig.fuel param.2 TypeMode.Owned
        | [] => print_ty_ g ig.fuel param.2 TypeMode.Owned)
       ++ ", ")
  ++ ") |"
  ++ (if ig.opts.async_ then " Box::new(async move \x7b \n" else " \x7b \n")
  ++ (if ig.opts.tracing then
        import_span
          (match owner with
           | .Interface id => ((ig.resolve.interfaces id).name).getD "<no module>"
           | .World id => (ig.resolve.worlds id).name
           | .None => "<no owner>")
          func.name
        ++ "tracing::event!(tracing::Level::TRACE, "
        ++ String.intercalate ", "
             ((func.params.enum.map (fun p =>
                to_rust_ident p.2.1 ++ " = tracing::field::debug(&arg"
                ++ toString p.1 ++ ")"))
              ++ ["\"call\""])
        ++ ");\n"
      else "")
  ++ (match func.kind with
      | .Freestanding =>
        "let host = get(caller.data_mut());\n"
        ++ "let r = host." ++ func_name ++ "("
        ++ emit_each func.params.enum (fun p => "arg" ++ toString p.1 ++ ", ")
        ++ (if ig.opts.async_ then ").await;\n" else ");\n")
      | .Method _ =>
        "let mut resource = caller.data_mut().get_resource_mut(arg0);\n"
        ++ "let r = resource." ++ func_name ++ "("
        ++ emit_each (func.params.enum.drop 1) (fun p => "arg" ++ toString p.1 ++ ", ")
        ++ (if ig.opts.async_ then ").await;\n" else ");\n")
      | .Static _ =>
        let resource_name := String.mk (func.name.data.drop 7)
        let resource_impl_name :=
          (assoc_get ig.opts.resources resource_name).getD
            ("resource `" ++ resource_name ++ "` doesn't have an implementation")
        "let r = " ++ resource_impl_name ++ "::" ++ func_name ++ "("
        ++ emit_each func.params.enum (fun p => "arg" ++ toString p.1 ++ ", ")
        ++ (if ig.opts.async_ then ").await;\n" else ");\n")
      | .Constructor _ =>
        let resource_name := String.mk (func.name.data.drop 13)
        let resource_impl_name :=
          (assoc_get ig.opts.resources resource_name).getD
            ("resource `" ++ resource_name ++ "` doesn't have an implementation")
        "let resource = " ++ resource_impl_name ++ "::new("
        ++ emit_each func.params.enum (fun p => "arg" ++ toString p.1 ++ ",")
        ++ (if ig.opts.async_ then ").await;\n" else ")?;\n")
        ++ "let r = caller.data_mut().new_resource(resource);")
  ++ (if ig.opts.tracing then
        "tracing::event!(tracing::Level::TRACE, result = tracing::field::debug(&r), \"return\");"
      else "")
  ++ (if (special_case_trappable_error ig owner func.results).isSome then
        trappable_dispatch_snippet
      else if func.results.iter_types.length = 1 then
        match func.kind with
        | .Constructor _ => "Ok((r,))\n"
        | _ => "Ok((r?,))\n"
      else "r\n")
  ++ (if ig.opts.async_ then "\x7d)\n" else "\x7d\n")

/-- `InterfaceGenerator::generate_add_function_to_linker` (lib.rs lines
1472-1486). -/
def generate_add_function_to_linker (ig : IG) (owner : TypeOwner) (func : Function)
    (linker : String) : String :=
  linker ++ "." ++ (if ig.opts.async_ then "func_wrap_async" else "func_wrap")
  ++ "(\"" ++ func.name ++ "\", "
  ++ generate_guest_import_closure ig owner func
  ++ ")?;\n"

/-- Insertion into a `HashSet`, modelled as first-insertion-order
deduplication (the set's real iteration order is unspecified). -/
def set_insert (l : List String) (x : String) : List String :=
  if x ∈ l then l else l ++ [x]

/-- The `resource_set` accumulated by `generate_add_to_linker` (lib.rs
lines 1371-1380): every resource name reachable from some parameter. -/
def resource_set_of (ig : IG) (iface : Interface) : List String :=
  iface.functions.foldl
    (fun acc p =>
      p.2.params.foldl
        (fun acc param =>
          (get_resource_from_ty ig ig.fuel param.2).foldl
            (fun acc r => set_insert acc r.1) acc)
        acc)
    []

/-- `InterfaceGenerator::generate_add_to_linker` (lib.rs lines 1367-1470):
the per-interface `Host` trait and `add_to_linker` registration function.
`expect` failures are modelled by message text; template indentation
normalized. -/
def generate_add_to_linker (ig : IG) (id : Nat) (name : String) : String :=
  let iface := ig.resolve.interfaces id
  let owner := TypeOwner.Interface id
  let resource_set := resource_set_of ig iface
  let resource_traits : Option String :=
    if !resource_set.isEmpty then
      let traits :=
        String.intercalate " + "
          (ig.opts.resources.map (fun p =>
            "wasmtime::component::ResourceTable<" ++ p.2 ++ ">"))
      if traits.length > 0 then some traits else Option.none
    else Option.none
  let where_clause :=
    match ig.opts.async_, resource_traits with
    | true, Option.none => "T: Send, U: Host + Send"
    | true, some rt => "T: " ++ rt ++ " + Send, U: Host + Send"
    | false, Option.none => "U: Host"
    | false, some rt => "T: " ++ rt ++ ", U: Host"
  emit_each resource_set (fun resource_name =>
    "use super::super::super::"
    ++ ((assoc_get ig.opts.resources resource_name).getD
          ("no implementation defined for resource `" ++ resource_name ++ "`"))
    ++ ";\n")
  ++ (if ig.opts.async_ then "#[wasmtime::component::__internal::async_trait]\n" else "")
  ++ "pub trait Host \x7b\n"
  ++ emit_each iface.functions (fun p =>
       match p.2.kind with
       | .Freestanding => generate_function_trait_sig ig owner p.2
       | _ => "")
  ++ "\x7d\n"
  ++ "\npub fn add_to_linker<T, U>(\n"
  ++ "linker: &mut wasmtime::component::Linker<T>,\n"
  ++ "get: impl Fn(&mut T) -> &mut U + Send + Sync + Copy + \x27static,\n"
  ++ ") -> wasmtime::Result<()>\n"
  ++ "where " ++ where_clause ++ ",\n"
  ++ "\x7b\n"
  ++ "let mut inst = linker.instance(\"" ++ name ++ "\")?;\n"
  ++ (if !resource_set.isEmpty then
        emit_each ig.opts.resources (fun p =>
          "\ninst.resource::<" ++ p.2 ++ ">(\"" ++ p.1
          ++ "\", |mut store, rep| \x7b\n"
          ++ "store.data_mut().drop_resource(rep);\n"
          ++ "\x7d)?;\n\n")
      else "")
  ++ emit_each iface.functions (fun p =>
       generate_add_function_to_linker ig owner p.2 "inst")
  ++ "Ok(())\n"
  ++ "\x7d\n"

/-! ### Trappable Error Codegen (lib.rs `generate_trappable_error_types`) -/

/-- The abort guard of `generate_trappable_error_types` (lib.rs lines
2476-2478): the run panics when the owned-mode representation of the
mapped error type would carry a lifetime. -/
def trappable_static_guard (ig : IG) (wit_type : TypeId) : Bool :=
  (lifetime_for (rg_of ig) (ig.info wit_type) TypeMode.Owned).isSome

/-- The panic message of the guard (lib.rs line 2477). -/
def trappable_error_panic_text (trappable_type : String) : String :=
  "wit error for " ++ trappable_type ++ " is not \x27static"

/-- The generated trappable error wrapper (lib.rs lines 2479-2518),
template indentation normalized. -/
def trappable_error_template (ig : IG) (wit_type : TypeId)
    (trappable_type : String) : String :=
  let abi_type := param_name (rg_of ig) wit_type
  "\n#[derive(Debug)]\n"
  ++ "pub struct " ++ trappable_type ++ " \x7b\n"
  ++ "inner: anyhow::Error,\n"
  ++ "\x7d\n"
  ++ "impl std::fmt::Display for " ++ trappable_type ++ " \x7b\n"
  ++ "fn fmt(&self, f: &mut std::fmt::Formatter<\x27_>) -> std::fmt::Result \x7b\n"
  ++ "write!(f, \"\x7b\x7d\", self.inner)\n"
  ++ "\x7d\n"
  ++ "\x7d\n"
  ++ "impl std::error::Error for " ++ trappable_type ++ " \x7b\n"
  ++ "fn source(&self) -> Option<&(dyn std::error::Error + \x27static)> \x7b\n"
  ++ "self.inner.source()\n"
  ++ "\x7d\n"
  ++ "\x7d\n"
  ++ "impl " ++ trappable_type ++ " \x7b\n"
  ++ "pub fn trap(inner: anyhow::Error) -> Self \x7b\n"
  ++ "Self \x7b inner \x7d\n"
  ++ "\x7d\n"
  ++ "pub fn downcast(self) -> Result<" ++ abi_type ++ ", anyhow::Error> \x7b\n"
  ++ "self.inner.downcast()\n"
  ++ "\x7d\n"
  ++ "pub fn downcast_ref(&self) -> Option<&" ++ abi_type ++ "> \x7b\n"
  ++ "self.inner.downcast_ref()\n"
  ++ "\x7d\n"
  ++ "pub fn context(self, s: impl Into<String>) -> Self \x7b\n"
  ++ "Self \x7b inner: self.inner.context(s.into()) \x7d\n"
  ++ "\x7d\n"
  ++ "\x7d\n"
  ++ "impl From<" ++ abi_type ++ "> for " ++ trappable_type ++ " \x7b\n"
  ++ "fn from(abi: " ++ abi_type ++ ") -> " ++ trappable_type ++ " \x7b\n"
  ++ trappable_type ++ " \x7b inner: anyhow::Error::from(abi) \x7d\n"
  ++ "\x7d\n"
  ++ "\x7d\n"

/-- `InterfaceGenerator::generate_trappable_error_types` (lib.rs lines
2473-2520).  The source panics when the guard fires; the panic is modelled
by emitting its message text in place of the wrapper. -/
def generate_trappable_error_types (ig : IG) (owner : TypeOwner) : String :=
  emit_each (trappable_error_types ig owner) (fun p =>
    if trappable_static_guard ig p.1 then trappable_error_panic_text p.2
    else trappable_error_template ig p.1 p.2)

/-! ### The Export Binding Generator (lib.rs `define_rust_guest_export`) -/

/-- Insertion into a `BTreeMap<String, String>`: sorted by key,
replacing an existing binding. -/
def btree_insert (l : List (String × String)) (k v : String) : List (String × String) :=
  match l with
  | [] => [(k, v)]
  | (k', v') :: rest =>
    if k = k' then (k, v) :: rest
    else if k < k' then (k, v) :: (k', v') :: rest
    else (k', v') :: btree_insert rest k v

/-- `Wasmtime::define_rust_guest_export` (lib.rs lines 2252-2435): the
host-callable wrapper invoking one guest export.  Template indentation
normalized. -/
def define_rust_guest_export (ig : IG) (ns : Option WorldKey) (func : Function)
    (owner : TypeOwner) : String :=
  let g := rg_of ig
  let async_ := if ig.opts.async_ then "async" else ""
  let async__ := if ig.opts.async_ then "_async" else ""
  let await_ := if ig.opts.async_ then ".await" else ""
  let params : List (Option (List (String × TypeOwner))) :=
    func.params.map (fun param =>
      let resources := get_resource_from_ty ig ig.fuel param.2
      if resources.isEmpty then Option.none else some resources)
  let resources : List (List (String × TypeOwner)) := params.filterMap id
  let args_map : List (String × String) :=
    resources.enum.foldl
      (fun m p =>
        match p.2 with
        | (resource_trait_name, resource_owner) :: _ =>
          if resource_owner = owner then m
          else btree_insert m (to_upper_camel_case resource_trait_name)
                 ("R" ++ toString p.1)
        | [] => m)
      []
  rustdoc func.docs
  ++ "pub " ++ async_ ++ " fn call_" ++ to_snake_case func.name ++ "<"
  ++ (if args_map.isEmpty then "S: wasmtime::AsContextMut>(&self, mut store: S, "
      else
        emit_each args_map.enum (fun p =>
          p.2.2 ++ ": " ++ p.2.1 ++ " + \x27static,\n")
        ++ "T: "
        ++ emit_each args_map.enum (fun p =>
             "wasmtime::component::ResourceTable<" ++ p.2.2 ++ "> "
             ++ (if p.1 ≠ args_map.length - 1 then "+ " else ""))
        ++ ",\n"
        ++ "S: wasmtime::AsContextMut<Data = T>,>(&self, mut store: S, \n")
  ++ emit_each func.params.enum (fun p =>
       "arg" ++ toString p.1 ++ ": "
       ++ (match (params.getD p.1 Option.none) with
           | some resource =>
             (match resource with
              | (resource_trait_name, resource_owner) :: _ =>
                let camel := to_upper_camel_case resource_trait_name
                (match assoc_get args_map camel, resource_owner == owner with
                 | some arg_name, false => arg_name
                 | _, _ => print_ty_ g ig.fuel p.2.2 (TypeMode.AllBorrowed "\x27_"))
              | [] => print_ty_ g ig.fuel p.2.2 (TypeMode.AllBorrowed "\x27_"))
           | Option.none => print_ty_ g ig.fuel p.2.2 (TypeMode.AllBorrowed "\x27_"))
       ++ ",")
  ++ ") -> wasmtime::Result<"
  ++ print_result_ty_ g ig.fuel func.results TypeMode.Owned
  ++ (if ig.opts.async_ then
        "> where <S as wasmtime::AsContext>::Data: Send \x7b\n"
      else "> \x7b\n")
  ++ (if ig.opts.tracing then
        export_span
          (match ns with
           | some key => ig.resolve.name_world_key key
           | Option.none => "default")
          func.name
      else "")
  ++ "let callee = unsafe \x7b\n"
  ++ "wasmtime::component::TypedFunc::<("
  ++ emit_each func.params.enum (fun p =>
       (match (params.getD p.1 Option.none) with
        | some resource =>
          (match resource with
           | (resource_trait_name, resource_owner) :: _ =>
             let camel := to_upper_camel_case resource_trait_name
             (match assoc_get args_map camel, resource_owner == owner with
              | some arg_name, false =>
                "wasmtime::component::Resource<" ++ arg_name ++ ">"
              | _, _ => print_ty_ g ig.fuel p.2.2 (TypeMode.AllBorrowed "\x27_"))
           | [] => print_ty_ g ig.fuel p.2.2 (TypeMode.AllBorrowed "\x27_"))
        | Option.none => print_ty_ g ig.fuel p.2.2 (TypeMode.AllBorrowed "\x27_"))
       ++ ",")
  ++ "), ("
  ++ emit_each func.results.iter_types (fun ty =>
       print_ty_ g ig.fuel ty TypeMode.Owned ++ ", ")
  ++ ")>::new_unchecked(self." ++ to_snake_case func.name ++ ")\n"
  ++ "\x7d;\n"
  ++ (if !args_map.isEmpty then
        emit_each params.enum (fun p =>
          match p.2 with
          | some _ =>
            "let arg" ++ toString p.1
            ++ " = store.as_context_mut().data_mut().new_resource(arg"
            ++ toString p.1 ++ ");"
          | Option.none => "")
      else "")
  ++ "let ("
  ++ emit_each func.results.iter_types.enum (fun p => "ret" ++ toString p.1 ++ ",")
  ++ ") = callee.call" ++ async__ ++ "(store.as_context_mut(), ("
  ++ emit_each func.params.enum (fun p => "arg" ++ toString p.1 ++ ", ")
  ++ "))" ++ await_ ++ "?;\n"
  ++ "callee.post_return" ++ async__ ++ "(store.as_context_mut())" ++ await_ ++ "?;\n"
  ++ "Ok("
  ++ (if func.results.iter_types.length = 1 then "ret0"
      else
        "("
        ++ emit_each func.results.iter_types.enum (fun p => "ret" ++ toString p.1 ++ ",")
        ++ ")")
  ++ ")\n"
  ++ "\x7d\n"

/-! ### The `Wasmtime` world-level generator state (lib.rs) -/

/-- `ImportInterface` (lib.rs lines 56-59). -/
structure ImportInterface where
  snake : String
  module : String
deriving DecidableEq, Repr

/-- The mutable state of the `Wasmtime` generator (lib.rs lines 43-70).
The `BTreeMap`s keyed by package name and the `exports.fields` map are
modelled as association lists in insertion order; their key ordering only
affects final assembly, which no claim depends on. -/
structure WasmtimeState where
  src : String
  import_interfaces : List (Option PackageName × List ImportInterface)
  import_functions : List (String × String)
  exports_fields : List (String × (String × String))
  exports_modules : List (Option PackageName × List String)
  exports_funcs : List String
  interface_names : List (Nat × InterfaceName)
  with_name_counter : Nat
deriving DecidableEq, Repr

/-- The empty `Wasmtime` state (`Wasmtime::default`). -/
def WasmtimeState.empty : WasmtimeState :=
  { src := ""
    import_interfaces := []
    import_functions := []
    exports_fields := []
    exports_modules := []
    exports_funcs := []
    interface_names := []
    with_name_counter := 0 }

/-- The immutable inputs of one generation run: resolve, options, analyzer
output, layout sizes, printer fuel. -/
structure GenCtx where
  resolve : Resolve
  opts : Opts
  info : TypeId → TypeInfo
  size : TypeId → Nat
  align : TypeId → Nat
  fuel : Nat

/-- The `InterfaceGenerator` view of the current generation state. -/
def ig_of (ctx : GenCtx) (st : WasmtimeState)
    (cur : Option (Nat × WorldKey × Bool)) : IG :=
  { resolve := ctx.resolve
    opts := ctx.opts
    info := ctx.info
    size := ctx.size
    align := ctx.align
    interface_names := st.interface_names
    current_interface := cur
    fuel := ctx.fuel }

/-- `HashMap::insert` on an association list: replace or append. -/
def assoc_insert {κ ν : Type} [DecidableEq κ] (l : List (κ × ν)) (k : κ) (v : ν) :
    List (κ × ν) :=
  match l with
  | [] => [(k, v)]
  | (k', v') :: rest =>
    if k' = k then (k, v) :: rest else (k', v') :: assoc_insert rest k v

/-- `BTreeMap::entry(k).or_insert(Vec::new()).push(v)` on an association
list. -/
def entry_push {κ ν : Type} [DecidableEq κ] (l : List (κ × List ν)) (k : κ) (v : ν) :
    List (κ × List ν) :=
  match l with
  | [] => [(k, [v])]
  | (k', vs) :: rest =>
    if k' = k then (k', vs ++ [v]) :: rest else (k', vs) :: entry_push rest k v

/-- `Wasmtime::name_interface` (lib.rs lines 147-181): compute and record
the canonical path of an interface, emitting an alias `use` statement and
answering `true` when the caller supplied a remapping. -/
def name_interface (ctx : GenCtx) (st : WasmtimeState) (id : Nat) (name : WorldKey) :
    WasmtimeState × Bool :=
  let with_name := ctx.resolve.name_world_key name
  match assoc_get ctx.opts.with_ with_name with
  | some remapped_path =>
    let fresh := "__with_name" ++ toString st.with_name_counter
    ({ st with
        with_name_counter := st.with_name_counter + 1
        src := st.src ++ "use " ++ remapped_path ++ " as " ++ fresh ++ ";\n"
        interface_names := assoc_insert st.interface_names id ⟨true, fresh⟩ },
     true)
  | Option.none =>
    let path :=
      match name with
      | .Name n => to_snake_case n
      | .Interface _ =>
        let iface := ctx.resolve.interfaces id
        let pkgname := (ctx.resolve.packages (iface.package.getD 0)).name
        to_snake_case pkgname.namespace_ ++ "::" ++ to_snake_case pkgname.name
          ++ "::" ++ to_snake_case (iface.name.getD "")
    ({ st with interface_names := assoc_insert st.interface_names id ⟨false, path⟩ },
     false)

/-- The `pub mod` wrapper around an interface module (lib.rs lines 231-241
and 351-361), indentation normalized. -/
def module_wrap (snake : String) (module : String) : String :=
  "\n#[allow(clippy::all)]\n"
  ++ "pub mod " ++ snake ++ " \x7b\n"
  ++ "#[allow(unused_imports)]\n"
  ++ "use wasmtime::component::__internal::anyhow;\n\n"
  ++ module ++ "\n\x7d\n"

/-- `Wasmtime::import` (lib.rs lines 199-262): handle one world import. -/
def import_item (ctx : GenCtx) (st : WasmtimeState) (name : WorldKey)
    (item : WorldItem) : WasmtimeState :=
  match item with
  | .Function func =>
    let ig := ig_of ctx st Option.none
    let sig := generate_function_trait_sig ig TypeOwner.None func
    let add_to_linker := generate_add_function_to_linker ig TypeOwner.None func "linker"
    { st with import_functions := st.import_functions ++ [(sig, add_to_linker)] }
  | .Interface id =>
    let step := name_interface ctx st id name
    let st := step.1
    if step.2 then st
    else
      let ig := ig_of ctx st (some (id, name, false))
      let key_name := ctx.resolve.name_world_key name
      let module_body :=
        ig_types ig Direction.Import id
        ++ generate_trappable_error_types ig (TypeOwner.Interface id)
        ++ generate_add_to_linker ig id key_name
      let snake :=
        match name with
        | .Name s => to_snake_case s
        | .Interface iid => to_snake_case ((ctx.resolve.interfaces iid).name.getD "")
      let module := module_wrap snake module_body
      let pkgname :=
        match name with
        | .Name _ => Option.none
        | .Interface _ =>
          some (ctx.resolve.packages
            ((ctx.resolve.interfaces id).package.getD 0)).name
      { st with
          import_interfaces := entry_push st.import_interfaces pkgname ⟨snake, module⟩ }
  | .Ty t =>
    let ig := ig_of ctx st Option.none
    let tyname :=
      match name with
      | .Name n => n
      | .Interface _ => "unreachable"
    let body := define_type ig Direction.Import tyname t
    { st with src := st.src ++ body }

/-- `Wasmtime::export` (lib.rs lines 264-411): handle one world export.
The `WorldItem::Type` arm is the source's `unreachable!()`. -/
def export_item (ctx : GenCtx) (st : WasmtimeState) (name : WorldKey)
    (item : WorldItem) : WasmtimeState :=
  match item with
  | .Ty _ => st
  | .Function func =>
    let ig := ig_of ctx st Option.none
    let body := define_rust_guest_export ig Option.none func TypeOwner.None
    let getter := (extract_typed_function ig func).2
    let field := to_snake_case func.name
    { st with
        exports_funcs := st.exports_funcs ++ [body]
        exports_fields :=
          assoc_insert st.exports_fields field ("wasmtime::component::Func", getter) }
  | .Interface id =>
    let step := name_interface ctx st id name
    let st := step.1
    let ig := ig_of ctx st (some (id, name, true))
    let iface := ctx.resolve.interfaces id
    let iface_name :=
      match name with
      | .Name n => n
      | .Interface _ => iface.name.getD ""
    let camel := to_rust_upper_camel_case iface_name
    let fields : List String :=
      iface.functions.filterMap (fun p =>
        match p.2.kind with
        | .Freestanding => some (extract_typed_function ig p.2).1
        | _ => Option.none)
    let module_body :=
      ig_types ig Direction.Export id
      ++ generate_trappable_error_types ig (TypeOwner.Interface id)
      ++ "pub struct " ++ camel ++ " \x7b\n"
      ++ emit_each iface.functions (fun p =>
           match p.2.kind with
           | .Freestanding => to_snake_case p.2.name ++ ": wasmtime::component::Func,\n"
           | _ => "")
      ++ "\x7d\n"
      ++ "impl " ++ camel ++ " \x7b\n"
      ++ "\npub fn new(\n"
      ++ "__exports: &mut wasmtime::component::ExportInstance<\x27_, \x27_>,\n"
      ++ ") -> wasmtime::Result<" ++ camel ++ "> \x7b\n"
      ++ emit_each iface.functions (fun p =>
           match p.2.kind with
           | .Freestanding =>
             let e := extract_typed_function ig p.2
             "let " ++ e.1 ++ " = " ++ e.2 ++ ";\n"
           | _ => "")
      ++ "Ok(" ++ camel ++ " \x7b\n"
      ++ emit_each fields (fun n => n ++ ",\n")
      ++ "\x7d)\n"
      ++ "\x7d\n"
      ++ emit_each iface.functions (fun p =>
           match p.2.kind with
           | .Freestanding =>
             define_rust_guest_export ig (some name) p.2 (TypeOwner.Interface id)
           | _ => "")
      ++ "\x7d\n"
    let snake := to_snake_case iface_name
    let module := module_wrap snake module_body
    let pkgname :=
      match name with
      | .Name _ => Option.none
      | .Interface _ =>
        some (ctx.resolve.packages (iface.package.getD 0)).name
    let st := { st with exports_modules := entry_push st.exports_modules pkgname module }
    let wk_name := ctx.resolve.name_world_key name
    let pm : String × String :=
      match pkgname with
      | some pkgname =>
        ("exports::" ++ to_snake_case pkgname.namespace_ ++ "::"
           ++ to_snake_case pkgname.name ++ "::" ++ snake ++ "::" ++ camel,
         to_snake_case pkgname.namespace_ ++ "_" ++ to_snake_case pkgname.name
           ++ "_" ++ snake)
      | Option.none => ("exports::" ++ snake ++ "::" ++ camel, snake)
    let getter :=
      pm.1 ++ "::new(\n&mut __exports.instance(\"" ++ wk_name ++ "\")\n"
      ++ ".ok_or_else(|| anyhow::anyhow!(\"exported instance `" ++ wk_name
      ++ "` not present\"))?\n)?"
    let field := "interface" ++ toString st.exports_fields.length
    let accessor :=
      "\npub fn " ++ pm.2 ++ "(&self) -> &" ++ pm.1 ++ " \x7b\n"
      ++ "&self." ++ field ++ "\n\x7d\n"
    { st with
        exports_funcs := st.exports_funcs ++ [accessor]
        exports_fields := assoc_insert st.exports_fields field (pm.1, getter) }

/-- `Wasmtime::toplevel_add_to_linker` (lib.rs lines 593-689): the
combined world-level registration function.  Template indentation
normalized. -/
def toplevel_add_to_linker (ctx : GenCtx) (st : WasmtimeState) (world : Nat) : String :=
  if st.import_interfaces.isEmpty && st.import_functions.isEmpty then ""
  else
    let interfaces : List String :=
      (st.import_interfaces.map (fun e =>
        e.2.map (fun imp =>
          (match e.1 with
           | some pkg =>
             to_snake_case pkg.namespace_ ++ "::" ++ to_snake_case pkg.name ++ "::"
           | Option.none => "")
          ++ imp.snake))).flatten
    let maybe_resource_trait_impls : Option String :=
      if ctx.opts.resources.length > 0 then
        some (String.intercalate " + " (ctx.opts.resources.map (fun p =>
          "wasmtime::component::ResourceTable<" ++ p.2 ++ ">")))
      else Option.none
    let world_camel := to_rust_upper_camel_case (ctx.resolve.worlds world).name
    let world_trait := world_camel ++ "Imports"
    let bounds :=
      (interfaces.map (fun n => n ++ "::Host"))
      ++ (if st.import_functions.isEmpty then [] else [world_trait])
    let maybe_send :=
      match ctx.opts.async_, maybe_resource_trait_impls with
      | true, Option.none => " + Send, T: Send"
      | true, some rt => " + Send, T: " ++ rt ++ " + Send"
      | false, Option.none => ""
      | false, some rt => ", T: " ++ rt
    "\npub fn add_to_linker<T, U>(\n"
    ++ "linker: &mut wasmtime::component::Linker<T>,\n"
    ++ "get: impl Fn(&mut T) -> &mut U + Send + Sync + Copy + \x27static,\n"
    ++ ") -> wasmtime::Result<()>\n"
    ++ "where U: "
    ++ String.intercalate " + " bounds
    ++ maybe_send
    ++ ",\n\x7b\n"
    ++ emit_each interfaces (fun n => n ++ "::add_to_linker(linker, get)?;\n")
    ++ (if !st.import_functions.isEmpty then "Self::add_root_to_linker(linker, get)?;\n"
        else "")
    ++ "Ok(())\n\x7d\n"
    ++ (if st.import_functions.isEmpty then ""
        else
          "\npub fn add_root_to_linker<T, U>(\n"
          ++ "linker: &mut wasmtime::component::Linker<T>,\n"
          ++ "get: impl Fn(&mut T) -> &mut U + Send + Sync + Copy + \x27static,\n"
          ++ ") -> wasmtime::Result<()>\n"
          ++ "where U: " ++ world_trait ++ maybe_send ++ "\n\x7b\n"
          ++ "let mut linker = linker.root();\n"
          ++ emit_each st.import_functions (fun f => f.2 ++ "\n")
          ++ "Ok(())\n\x7d\n")

/-- The semantics of the dispatch `match` in `trappable_dispatch_snippet`
(lib.rs lines 1656-1665), as a function on host results: `r` is the host
return value, `downcast` is the generated `downcast` method of the
trappable wrapper (`self.inner.downcast()`), an `Except.error` outcome of
the whole dispatch is the aborting trap handed to the runtime (the guest
never observes it), and the single-element result tuple `(x,)` is dropped. -/
def trappable_dispatch {α ε σ : Type} (r : Except ε α) (downcast : ε → Except ε σ) :
    Except ε (Except σ α) :=
  match r with
  | .ok a => .ok (.ok a)
  | .error e =>
    match downcast e with
    | .ok api_error => .ok (.error api_error)
    | .error anyhow_error => .error anyhow_error

end WitBindgen

namespace WasiNn

/-- `Table<K, V>` (crates/wasi-nn/src/ctx.rs lines 89-93).  The concrete
key types (`GraphId`, `GraphExecutionContextId`) are `u32`, and
`K: From<u32>` is the identity there, so keys are modelled as `Nat` and
the `HashMap` as a partial map. -/
structure Table (V : Type) where
  entries : Nat → Option V
  next_key : Nat

/-- `Table::default` (ctx.rs lines 95-102). -/
def Table.default {V : Type} : Table V :=
  { entries := fun _ => Option.none, next_key := 0 }

/-- `Table::use_next_key` (ctx.rs lines 122-126).  `next_key` is a `u32`;
the increment is taken modulo `2 ^ 32`. -/
def Table.use_next_key {V : Type} (t : Table V) : Nat × Table V :=
  let current := t.next_key
  (current, { t with next_key := (t.next_key + 1) % 2 ^ 32 })

/-- `Table::insert` (ctx.rs lines 108-112). -/
def Table.insert {V : Type} (t : Table V) (value : V) : Nat × Table V :=
  let s := t.use_next_key
  (s.1, { s.2 with entries := fun k => if k = s.1 then some value else s.2.entries k })

/-- `Table::get` (ctx.rs lines 114-116). -/
def Table.get {V : Type} (t : Table V) (key : Nat) : Option V :=
  t.entries key

/-- Run a sequence of `insert` calls.  `get` takes `&self` and does not
change the table, so any operation sequence without overflow is, up to the
interleaved pure reads, a list of inserted values. -/
def insert_all {V : Type} (t : Table V) (vs : List V) : Table V :=
  vs.foldl (fun t v => (t.insert v).2) t

end WasiNn

namespace WitBindgen

/-! ### Substring infrastructure for the emission theorems -/

/-- The list printer the spec describes, parameterized by the mode used
for the element: the outer wrapper follows the container mode, the element
is rendered at `elem_mode`.  The spec's sentence asserts `print_list_`
equals this with `elem_mode = Owned`. -/
def print_list_elem_at (g : RG) (fuel : Nat) (ty : WType) (mode elem_mode : TypeMode) :
    String :=
  match mode with
  | .AllBorrowed lt =>
    "&" ++ (if lt ≠ "\x27_" then lt ++ " " else "")
      ++ "[" ++ print_ty_ g fuel ty elem_mode ++ "]"
  | .Owned => "Vec<" ++ print_ty_ g fuel ty elem_mode ++ ">"

/-! ### Concrete models for witnesses and counterexamples -/

/-- An empty record type definition named `n`. -/
def named_record (n : String) : TypeDef :=
  { name := some n, kind := .Record ⟨[]⟩, owner := .None, docs := ⟨Option.none⟩ }

/-- Two types, `foo` (used owned and borrowed, contains a list) and
`foo-param` (used owned only), under `Borrowing { duplicate_if_necessary:
true }`. -/
def rgC4 : RG :=
  { types := fun i => if i = 0 then named_record "foo" else named_record "foo-param"
    info := fun i =>
      if i = 0 then ⟨true, true, true, false⟩ else ⟨true, false, true, false⟩
    ownership := .Borrowing true
    path_to_interface := fun _ => Option.none }

/-- A context under `Borrowing { duplicate_if_necessary: false }`. -/
def rgBorrow : RG :=
  { types := fun _ => named_record "t"
    info := fun _ => ⟨true, true, true, false⟩
    ownership := .Borrowing false
    path_to_interface := fun _ => Option.none }

/-- A context under the `Owning` policy. -/
def rgOwn : RG :=
  { types := fun _ => named_record "t"
    info := fun _ => ⟨true, true, true, false⟩
    ownership := .Owning
    path_to_interface := fun _ => Option.none }

/-- Options with everything off except the fields a model sets. -/
def opts_plain : Opts :=
  { rustfmt := false
    tracing := false
    async_ := false
    trappable_error_type := []
    ownership := .Owning
    only_interfaces := false
    with_ := []
    resources := [] }

/-- A resolve with one interface `my-iface` owning the error type
`my-error` (type id 0, used borrowed-with-list) and the anonymous
`result<u32, my-error>` shape (type id 1). -/
def resolve8 : Resolve :=
  { types := fun i =>
      if i = 0 then
        { name := some "my-error", kind := .Record ⟨[]⟩,
          owner := .Interface 0, docs := ⟨Option.none⟩ }
      else
        { name := Option.none, kind := .Res ⟨some WType.u32, some (WType.id 0)⟩,
          owner := .Interface 0, docs := ⟨Option.none⟩ }
    interfaces := fun _ =>
      { name := some "my-iface", types := [("my-error", 0)], functions := [],
        package := Option.none }
    worlds := fun _ => { name := "demo", imports := [], exports := [] }
    packages := fun _ => { name := ⟨"ns", "pkg"⟩ } }

/-- A generation context mapping `my-error` to the trappable wrapper
`TrappableMyError`, under `Borrowing { duplicate_if_necessary: false }`,
where `my-error`'s analyzer flags are borrowed-only with a list — so its
single generated representation carries a lifetime. -/
def ig8 : IG :=
  { resolve := resolve8
    opts := { opts_plain with
      trappable_error_type :=
        [{ wit_name := "my-error", wit_owner := Option.none,
           rust_name := "TrappableMyError" }]
      ownership := .Borrowing false }
    info := fun _ => ⟨false, true, true, true⟩
    size := fun _ => 4
    align := fun _ => 4
    interface_names := []
    current_interface := Option.none
    fuel := 10 }

/-- A freestanding function whose only result is the `result<u32,
my-error>` of `resolve8`. -/
def func3 : Function :=
  { name := "do-thing", kind := .Freestanding, params := [],
    results := .Anon (.id 1), docs := ⟨Option.none⟩ }

/-- A generation context whose only configuration difference is the
iteration order of the `resources` map. -/
def ctx9 (res : List (String × String)) : GenCtx :=
  { resolve := resolve8
    opts := { opts_plain with resources := res }
    info := fun _ => ⟨false, false, false, false⟩
    size := fun _ => 0
    align := fun _ => 0
    fuel := 10 }

/-- A world-level state with one imported top-level function, so
`toplevel_add_to_linker` emits its registration glue. -/
def st9 : WasmtimeState :=
  { WasmtimeState.empty with
      import_functions := [("fn ping(&mut self, ) -> wasmtime::Result<()>;\n", "f;")] }

/-- A resolve where type 0 is a named alias (`my-alias`) to the anonymous
owned handle (type 1) of the resource `r` (type 2). -/
def resolve_alias : Resolve :=
  { types := fun i =>
      if i = 0 then
        { name := some "my-alias", kind := .Typ (.id 1),
          owner := .Interface 0, docs := ⟨Option.none⟩ }
      else if i = 1 then
        { name := Option.none, kind := .Handle (.own 2),
          owner := .Interface 0, docs := ⟨Option.none⟩ }
      else
        { name := some "r", kind := .Resource,
          owner := .Interface 0, docs := ⟨Option.none⟩ }
    interfaces := fun _ =>
      { name := some "my-iface", types := [("my-alias", 0)], functions := [],
        package := Option.none }
    worlds := fun _ => { name := "demo", imports := [], exports := [] }
    packages := fun _ => { name := ⟨"ns", "pkg"⟩ } }

/-- A generation context over `resolve_alias` where the alias is used in
owned contexts. -/
def ig_alias : IG :=
  { resolve := resolve_alias
    opts := opts_plain
    info := fun _ => ⟨true, false, false, false⟩
    size := fun _ => 4
    align := fun _ => 4
    interface_names := []
    current_interface := Option.none
    fuel := 10 }

/-- Total number of module bodies contributed to `exports.modules`. -/
def modules_total (l : List (Option PackageName × List String)) : Nat :=
  (l.map (fun e => e.2.length)).sum

/-- A resolve with one interface named `foo`, holding no types and no
functions. -/
def resolve2 : Resolve :=
  { types := fun _ => named_record "t"
    interfaces := fun _ =>
      { name := some "foo", types := [], functions := [], package := Option.none }
    worlds := fun _ => { name := "demo", imports := [], exports := [] }
    packages := fun _ => { name := ⟨"ns", "pkg"⟩ } }

/-- A generation context remapping the interface key `foo` to the
caller-supplied external path `my::ext::path`. -/
def ctx2 : GenCtx :=
  { resolve := resolve2
    opts := { opts_plain with with_ := [("foo", "my::ext::path")] }
    info := fun _ => ⟨false, false, false, false⟩
    size := fun _ => 0
    align := fun _ => 0
    fuel := 10 }

/-- `sub` occurs contiguously inside `s`. -/
def SubstringOf (sub s : String) : Prop :=
  List.IsInfix sub.data s.data

instance (sub s : String) : Decidable (SubstringOf sub s) :=
  inferInstanceAs (Decidable (List.IsInfix sub.data s.data))

/-- A string occurs inside any three-part append having it in the middle. -/
theorem substr_of_append (pre sub post : String) :
    SubstringOf sub (pre ++ sub ++ post) :=
  ⟨pre.data, post.data, by simp [String.data_append]⟩

/-- A string occurs inside an append that ends with it. -/
theorem substr_of_append_right (pre sub : String) :
    SubstringOf sub (pre ++ sub) :=
  ⟨pre.data, [], by simp [String.data_append]⟩

/-- If some element's chunk ends in `sub`, then `sub` occurs in the
concatenation of all chunks. -/
theorem substr_emit_each {α : Type} {f : α → String} {l : List α} {p : α}
    (hp : p ∈ l) {sub : String} (h : ∃ pre, f p = pre ++ sub) :
    SubstringOf sub (emit_each l f) := by
  induction l with
  | nil => cases hp
  | cons a t ih =>
    cases hp with
    | head =>
      obtain ⟨pre, hpre⟩ := h
      exact ⟨pre.data, (emit_each t f).data, by
        simp [emit_each, hpre, String.data_append]⟩
    | tail _ hmem =>
      obtain ⟨s1, s2, hs⟩ := ih hmem
      exact ⟨(f a).data ++ s1, s2, by
        simp only [emit_each, String.data_append, List.append_assoc]
        rw [← hs]
        simp [List.append_assoc]⟩

/-! ### Claim theorems -/

/-- C6: for every type whose `TypeInfo` has `has_list = false`, and for
every ownership policy and type mode, `lifetime_for` assigns no lifetime
parameter. -/
theorem no_list_no_lifetime (g : RG) (info : TypeInfo) (mode : TypeMode)
    (h : info.has_list = false) : lifetime_for g info mode = Option.none := by
  unfold lifetime_for
  cases hpol : g.ownership <;> cases mode <;> simp [h]

theorem no_list_no_lifetime_witness :
    (⟨true, true, false, false⟩ : TypeInfo).has_list = false ∧
    lifetime_for rgBorrow ⟨true, true, false, false⟩ (TypeMode.AllBorrowed "\x27a")
      = Option.none :=
  ⟨rfl, no_list_no_lifetime rgBorrow ⟨true, true, false, false⟩
    (TypeMode.AllBorrowed "\x27a") rfl⟩

/-- C5: under the `Owning` policy, no representation ever carries a
lifetime parameter, no type is ever split into `Param`/`Result`
representations (`uses_two_names` is `false` for every `TypeInfo`), and
`modes_of` assigns at most one pair, in owned mode. -/
theorem owning_single_owned_representation (g : RG) (hpol : g.ownership = .Owning) :
    (∀ info mode, lifetime_for g info mode = Option.none) ∧
    (∀ info, uses_two_names g info = false) ∧
    (∀ ty, modes_of g ty = [] ∨
      modes_of g ty = [(result_name g ty, TypeMode.Owned)]) := by
  have h2 : ∀ info, uses_two_names g info = false := by
    intro info
    simp [uses_two_names, hpol]
  refine ⟨?_, h2, ?_⟩
  · intro info mode
    unfold lifetime_for
    rw [hpol]
  · intro ty
    by_cases hc : (!(g.info ty).owned && !(g.info ty).borrowed) = true
    · exact Or.inl (by simp [modes_of, hpol, hc])
    · exact Or.inr (by simp [modes_of, hpol, h2, hc])

theorem owning_single_owned_representation_witness :
    rgOwn.ownership = Ownership.Owning ∧
    lifetime_for rgOwn ⟨true, true, true, false⟩ (TypeMode.AllBorrowed "\x27a")
      = Option.none ∧
    uses_two_names rgOwn ⟨true, true, true, false⟩ = false ∧
    (modes_of rgOwn 0 = [] ∨
      modes_of rgOwn 0 = [(result_name rgOwn 0, TypeMode.Owned)]) :=
  ⟨rfl,
   (owning_single_owned_representation rgOwn rfl).1 ⟨true, true, true, false⟩ _,
   (owning_single_owned_representation rgOwn rfl).2.1 ⟨true, true, true, false⟩,
   (owning_single_owned_representation rgOwn rfl).2.2 0⟩

/-- C4 (amended): under `Borrowing { duplicate_if_necessary: true }`, a
type used owned and borrowed that contains a list gets exactly two
representations — the owned one suffixed `Result` and the borrowed one
suffixed `Param`, the latter with a lifetime parameter — and the two names
differ from each other.  (Distinctness from every other generated name is
not guaranteed; see the counterexample.) -/
theorem borrowing_duplicate_two_named_representations (g : RG) (ty : TypeId)
    (hpol : g.ownership = .Borrowing true)
    (howned : (g.info ty).owned = true)
    (hborrowed : (g.info ty).borrowed = true)
    (hlist : (g.info ty).has_list = true) :
    modes_of g ty =
      [(to_upper_camel_case (((g.types ty).name).getD "") ++ "Result",
        TypeMode.Owned),
       (to_upper_camel_case (((g.types ty).name).getD "") ++ "Param",
        TypeMode.AllBorrowed "\x27a")] ∧
    lifetime_for g (g.info ty) (TypeMode.AllBorrowed "\x27a") = some "\x27a" ∧
    to_upper_camel_case (((g.types ty).name).getD "") ++ "Param" ≠
      to_upper_camel_case (((g.types ty).name).getD "") ++ "Result" := by
  have h2 : uses_two_names g (g.info ty) = true := by
    simp [uses_two_names, hpol, howned, hborrowed, hlist]
  refine ⟨?_, ?_, ?_⟩
  · simp [modes_of, result_name, param_name, h2, howned, hborrowed, hlist]
  · simp [lifetime_for, hpol, hlist, h2]
  · intro h
    have hd := congrArg String.data h
    simp [String.data_append] at hd

theorem borrowing_duplicate_two_named_representations_witness :
    rgC4.ownership = Ownership.Borrowing true ∧
    modes_of rgC4 0 =
      [("FooResult", TypeMode.Owned), ("FooParam", TypeMode.AllBorrowed "\x27a")] ∧
    lifetime_for rgC4 (rgC4.info 0) (TypeMode.AllBorrowed "\x27a") = some "\x27a" := by
  have h := borrowing_duplicate_two_named_representations rgC4 0 rfl rfl rfl rfl
  refine ⟨rfl, ?_, h.2.1⟩
  rw [h.1]
  rfl

/-- C4 (counterexample): the generated names are not globally unique — a
sibling type named `foo-param` produces the same `FooParam` identifier as
the `Param` representation of `foo`, so two distinct type ids emit the
same name. -/
theorem param_suffix_name_collision :
    modes_of rgC4 0 =
      [("FooResult", TypeMode.Owned), ("FooParam", TypeMode.AllBorrowed "\x27a")] ∧
    modes_of rgC4 1 = [("FooParam", TypeMode.Owned)] ∧
    (0 : TypeId) ≠ 1 := by
  refine ⟨by rfl, by rfl, by decide⟩

/-- C7 (amended): `print_list_` renders the element in owned mode only
under the `Owning` policy; under a `Borrowing` policy the element inherits
the container's mode unchanged (deep borrowing). -/
theorem list_element_mode_policy (g : RG) (fuel : Nat) (ty : WType) (mode : TypeMode) :
    (g.ownership = .Owning →
      print_list_ g (fuel + 1) ty mode
        = print_list_elem_at g fuel ty mode TypeMode.Owned) ∧
    (∀ d, g.ownership = .Borrowing d →
      print_list_ g (fuel + 1) ty mode = print_list_elem_at g fuel ty mode mode) := by
  obtain ⟨gt, gi, go, gp⟩ := g
  constructor
  · intro h
    change go = Ownership.Owning at h
    subst h
    cases mode <;> rfl
  · intro d h
    change go = Ownership.Borrowing d at h
    subst h
    cases mode <;> rfl

theorem list_element_mode_policy_witness :
    rgOwn.ownership = Ownership.Owning ∧
    rgBorrow.ownership = Ownership.Borrowing false ∧
    print_list_ rgOwn 2 WType.string (TypeMode.AllBorrowed "\x27a")
      = print_list_elem_at rgOwn 1 WType.string (TypeMode.AllBorrowed "\x27a")
          TypeMode.Owned ∧
    print_list_ rgBorrow 2 WType.string (TypeMode.AllBorrowed "\x27a")
      = print_list_elem_at rgBorrow 1 WType.string (TypeMode.AllBorrowed "\x27a")
          (TypeMode.AllBorrowed "\x27a") :=
  ⟨rfl, rfl,
   (list_element_mode_policy rgOwn 1 WType.string (TypeMode.AllBorrowed "\x27a")).1 rfl,
   (list_element_mode_policy rgBorrow 1 WType.string
     (TypeMode.AllBorrowed "\x27a")).2 false rfl⟩

/-- C7 (counterexample): under a `Borrowing` policy the element of a
borrowed `list<string>` is printed borrowed (`&\x27a [&\x27a str]`), not owned as
the claim asserts (`&\x27a [String]`). -/
theorem borrowed_list_element_not_owned :
    print_list_ rgBorrow 2 WType.string (TypeMode.AllBorrowed "\x27a")
      = "&\x27a [&\x27a str]" ∧
    print_list_elem_at rgBorrow 1 WType.string (TypeMode.AllBorrowed "\x27a")
      TypeMode.Owned = "&\x27a [String]" ∧
    print_list_ rgBorrow 2 WType.string (TypeMode.AllBorrowed "\x27a") ≠
      print_list_elem_at rgBorrow 1 WType.string (TypeMode.AllBorrowed "\x27a")
        TypeMode.Owned := by
  refine ⟨by rfl, by rfl, by decide⟩

/-- C8 (code bug): the `'static` guard of `generate_trappable_error_types`
is vacuous — it queries `lifetime_for` at `TypeMode.Owned`, which is
`none` for every context and every `TypeInfo`, so the promised abort never
happens.  At the concrete input `ig8`, the mapped error type's single
generated representation is borrowed and carries the lifetime parameter
`'a`, yet the generator emits the wrapper glue instead of aborting. -/
theorem trappable_static_guard_vacuous :
    (∀ (ig : IG) (id : TypeId), trappable_static_guard ig id = false) ∧
    trappable_error_types ig8 (TypeOwner.Interface 0) = [(0, "TrappableMyError")] ∧
    modes_of (rg_of ig8) 0 = [("MyError", TypeMode.AllBorrowed "\x27a")] ∧
    lifetime_for (rg_of ig8) (ig8.info 0) (TypeMode.AllBorrowed "\x27a")
      = some "\x27a" ∧
    generate_trappable_error_types ig8 (TypeOwner.Interface 0)
      = trappable_error_template ig8 0 "TrappableMyError" := by
  refine ⟨?_, by rfl, by rfl, by rfl, by rfl⟩
  intro ig id
  cases hO : (rg_of ig).ownership <;>
    simp [trappable_static_guard, lifetime_for, hO]

/-- C3: for every function whose results trigger the trappable-error
special case, the emitted import dispatch closure contains the dispatch
`match`, and that match's semantics map a host `Ok(a)` to `Ok((Ok(a),))`,
a host `Err(e)` with successful downcast to the guest-visible
`Ok((Err(api_error),))`, and a failed downcast to the aborting error that
never reaches the guest. -/
theorem trappable_error_dispatch_mapping (ig : IG) (owner : TypeOwner)
    (func : Function)
    (h : (special_case_trappable_error ig owner func.results).isSome = true) :
    SubstringOf trappable_dispatch_snippet
      (generate_guest_import_closure ig owner func) ∧
    (∀ (α ε σ : Type) (a : α) (dc : ε → Except ε σ),
      trappable_dispatch (Except.ok a : Except ε α) dc = Except.ok (Except.ok a)) ∧
    (∀ (α ε σ : Type) (e : ε) (api : σ) (dc : ε → Except ε σ),
      dc e = Except.ok api →
      trappable_dispatch (Except.error e : Except ε α) dc
        = Except.ok (Except.error api)) ∧
    (∀ (α ε σ : Type) (e e' : ε) (dc : ε → Except ε σ),
      dc e = Except.error e' →
      trappable_dispatch (Except.error e : Except ε α) dc = Except.error e') := by
  refine ⟨?_, ?_, ?_, ?_⟩
  · unfold generate_guest_import_closure
    rw [h]
    simp only [if_true]
    exact substr_of_append _ _ _
  · intro α ε σ a dc
    rfl
  · intro α ε σ e api dc hdc
    simp [trappable_dispatch, hdc]
  · intro α ε σ e e' dc hdc
    simp [trappable_dispatch, hdc]

theorem trappable_error_dispatch_mapping_witness :
    (special_case_trappable_error ig8 (TypeOwner.Interface 0) func3.results).isSome
      = true ∧
    SubstringOf trappable_dispatch_snippet
      (generate_guest_import_closure ig8 (TypeOwner.Interface 0) func3) ∧
    trappable_dispatch (Except.ok 5 : Except String Nat)
      (fun e => (Except.error e : Except String String))
      = Except.ok (Except.ok 5) := by
  have h : (special_case_trappable_error ig8 (TypeOwner.Interface 0)
      func3.results).isSome = true := by rfl
  have t := trappable_error_dispatch_mapping ig8 (TypeOwner.Interface 0) func3 h
  exact ⟨h, t.1, t.2.1 Nat String String 5
    (fun e => (Except.error e : Except String String))⟩

/-- Permutations of lists with at most one element are equal. -/
theorem perm_length_le_one_eq {α : Type} {l₁ l₂ : List α} (hp : l₁.Perm l₂)
    (hl : l₁.length ≤ 1) : l₁ = l₂ := by
  match l₁, hl with
  | [], _ => exact (List.perm_nil.mp hp.symm).symm
  | [a], _ => exact List.singleton_perm.mp hp

/-- C9 (amended): with the iteration order of the hash-based `resources`
configuration fixed, generation is a pure function of its inputs; in
particular, when the `resources` map has at most one entry its iteration
order is immaterial and both the interface-level and world-level
registration emitters produce byte-identical output for permuted maps. -/
theorem generation_deterministic_given_iteration_order
    (c : GenCtx) (st : WasmtimeState) (w : Nat) (ig : IG) (id : Nat) (name : String)
    (l₁ l₂ : List (String × String)) (hp : l₁.Perm l₂) (hl : l₁.length ≤ 1) :
    toplevel_add_to_linker { c with opts := { c.opts with resources := l₁ } } st w
      = toplevel_add_to_linker { c with opts := { c.opts with resources := l₂ } } st w ∧
    generate_add_to_linker { ig with opts := { ig.opts with resources := l₁ } } id name
      = generate_add_to_linker { ig with opts := { ig.opts with resources := l₂ } }
          id name := by
  have he : l₁ = l₂ := perm_length_le_one_eq hp hl
  subst he
  exact ⟨rfl, rfl⟩

theorem generation_deterministic_given_iteration_order_witness :
    List.Perm [("a", "A")] [("a", "A")] ∧
    ([("a", "A")] : List (String × String)).length ≤ 1 ∧
    toplevel_add_to_linker
        { ctx9 [] with opts := { (ctx9 []).opts with resources := [("a", "A")] } }
        st9 0
      = toplevel_add_to_linker
          { ctx9 [] with opts := { (ctx9 []).opts with resources := [("a", "A")] } }
          st9 0 :=
  ⟨List.Perm.refl _, by decide,
   (generation_deterministic_given_iteration_order (ctx9 []) st9 0 ig8 0 "n"
     [("a", "A")] [("a", "A")] (List.Perm.refl _) (by decide)).1⟩

/-- C1 (amended): for every `(name, mode)` representation the Type
Definition Emitter emits for records, tuples, variants, unions, options,
results, lists and handles — and for the single representation emitted
for flags and enums — the emitter also emits the static size assertion
and the alignment assertion produced by `assert_type`, which compares
against the schema layout-sizing pass.  Aliases carry the assertions too,
except an alias whose target resolves to a resource, which is re-emitted
as a `use` declaration with no assertions (see the counterexample). -/
theorem type_def_emitter_asserts_size_align (ig : IG) (dir : Direction)
    (nm : String) (id : TypeId) :
    (∀ r, (ig.resolve.types id).kind = TypeDefKind.Record r →
      ∀ p ∈ modes_of (rg_of ig) id,
        SubstringOf (assert_type ig id p.1) (define_type ig dir nm id)) ∧
    (∀ t, (ig.resolve.types id).kind = TypeDefKind.Tuple t →
      ∀ p ∈ modes_of (rg_of ig) id,
        SubstringOf (assert_type ig id p.1) (define_type ig dir nm id)) ∧
    (∀ t, (ig.resolve.types id).kind = TypeDefKind.Opt t →
      ∀ p ∈ modes_of (rg_of ig) id,
        SubstringOf (assert_type ig id p.1) (define_type ig dir nm id)) ∧
    (∀ r, (ig.resolve.types id).kind = TypeDefKind.Res r →
      ∀ p ∈ modes_of (rg_of ig) id,
        SubstringOf (assert_type ig id p.1) (define_type ig dir nm id)) ∧
    (∀ t, (ig.resolve.types id).kind = TypeDefKind.List t →
      ∀ p ∈ modes_of (rg_of ig) id,
        SubstringOf (assert_type ig id p.1) (define_type ig dir nm id)) ∧
    (∀ h, (ig.resolve.types id).kind = TypeDefKind.Handle h →
      ∀ p ∈ modes_of (rg_of ig) id,
        SubstringOf (assert_type ig id p.1) (define_type ig dir nm id)) ∧
    (∀ v, (ig.resolve.types id).kind = TypeDefKind.Variant v →
      ∀ p ∈ modes_of (rg_of ig) id,
        SubstringOf (assert_type ig id (to_rust_upper_camel_case p.1))
          (define_type ig dir nm id)) ∧
    (∀ u, (ig.resolve.types id).kind = TypeDefKind.Union u →
      ∀ p ∈ modes_of (rg_of ig) id,
        SubstringOf (assert_type ig id (to_rust_upper_camel_case p.1))
          (define_type ig dir nm id)) ∧
    (∀ f, (ig.resolve.types id).kind = TypeDefKind.Flags f →
      SubstringOf (assert_type ig id (to_rust_upper_camel_case nm))
        (define_type ig dir nm id)) ∧
    (∀ e, (ig.resolve.types id).kind = TypeDefKind.Enum e →
      SubstringOf (assert_type ig id (to_rust_upper_camel_case nm))
        (define_type ig dir nm id)) ∧
    (∀ t, (ig.resolve.types id).kind = TypeDefKind.Typ t →
      get_resource_from_ty ig ig.fuel t = [] →
      ∀ p ∈ modes_of (rg_of ig) id,
        SubstringOf (assert_type ig id p.1) (define_type ig dir nm id)) := by
  refine ⟨?_, ?_, ?_, ?_, ?_, ?_, ?_, ?_, ?_, ?_, ?_⟩
  · intro r hk p hp
    simp only [define_type, hk]
    exact substr_emit_each hp ⟨_, rfl⟩
  · intro t hk p hp
    simp only [define_type, hk]
    exact substr_emit_each hp ⟨_, rfl⟩
  · intro t hk p hp
    simp only [define_type, hk]
    exact substr_emit_each hp ⟨_, rfl⟩
  · intro r hk p hp
    simp only [define_type, hk]
    exact substr_emit_each hp ⟨_, rfl⟩
  · intro t hk p hp
    simp only [define_type, hk]
    exact substr_emit_each hp ⟨_, rfl⟩
  · intro h hk p hp
    simp only [define_type, hk]
    exact substr_emit_each hp ⟨_, rfl⟩
  · intro v hk p hp
    simp only [define_type, hk, type_variant]
    exact substr_emit_each hp ⟨_, rfl⟩
  · intro u hk p hp
    simp only [define_type, hk, type_union]
    exact substr_emit_each hp ⟨_, rfl⟩
  · intro f hk
    simp only [define_type, hk]
    exact substr_of_append_right _ _
  · intro e hk
    simp only [define_type, hk, type_enum]
    exact substr_of_append_right _ _
  · intro t hk hres p hp
    simp only [define_type, hk]
    apply substr_emit_each hp
    refine ⟨rustdoc (ig.resolve.types id).docs
      ++ ("pub type " ++ p.1
          ++ print_generics (lifetime_for (rg_of ig) (ig.info id) p.2)
          ++ " = " ++ print_ty_ (rg_of ig) ig.fuel t p.2 ++ ";\n"), ?_⟩
    simp [type_alias, hres, String.append_assoc]

set_option maxHeartbeats 1000000 in
theorem type_def_emitter_asserts_size_align_witness :
    (ig8.resolve.types 0).kind = TypeDefKind.Record ⟨[]⟩ ∧
    ("MyError", TypeMode.AllBorrowed "\x27a") ∈ modes_of (rg_of ig8) 0 ∧
    SubstringOf (assert_type ig8 0 "MyError")
      (define_type ig8 Direction.Import "my-error" 0) := by
  have hk : (ig8.resolve.types 0).kind = TypeDefKind.Record ⟨[]⟩ := rfl
  have hp : ("MyError", TypeMode.AllBorrowed "\x27a") ∈ modes_of (rg_of ig8) 0 := by
    decide
  exact ⟨hk, hp,
    (type_def_emitter_asserts_size_align ig8 Direction.Import "my-error" 0).1
      ⟨[]⟩ hk ("MyError", TypeMode.AllBorrowed "\x27a") hp⟩

/-- C1 (counterexample): an alias whose target resolves to a resource is
emitted as a representation (`modes_of` produces a pair and the emitter
emits a `use` re-export for it) with no size or alignment assertion at
all. -/
theorem type_alias_resource_no_assert :
    (ig_alias.resolve.types 0).kind = TypeDefKind.Typ (WType.id 1) ∧
    modes_of (rg_of ig_alias) 0 = [("MyAlias", TypeMode.Owned)] ∧
    define_type ig_alias Direction.Import "my-alias" 0
      = "use wasmtime::component::ResourceAny;\n" ∧
    ¬ SubstringOf "assert" (define_type ig_alias Direction.Import "my-alias" 0) := by
  refine ⟨rfl, by rfl, by rfl, by decide⟩

/-- `entry_push` adds exactly one module to the keyed module lists. -/
theorem entry_push_modules_total (l : List (Option PackageName × List String))
    (k : Option PackageName) (v : String) :
    modules_total (entry_push l k v) = modules_total l + 1 := by
  induction l with
  | nil => rfl
  | cons e rest ih =>
    by_cases hk : e.1 = k
    · simp [entry_push, hk, modules_total]
      omega
    · simp [entry_push, hk, modules_total] at ih ⊢
      omega

/-- `name_interface` never touches the collected export modules. -/
theorem name_interface_exports_modules (ctx : GenCtx) (st : WasmtimeState)
    (id : Nat) (key : WorldKey) :
    (name_interface ctx st id key).1.exports_modules = st.exports_modules := by
  rcases h : assoc_get ctx.opts.with_ (ctx.resolve.name_world_key key) with _ | p <;>
    simp [name_interface, h]

/-- C2 (amended): on the import side, a remapped interface contributes
exactly the alias `use` binding and nothing else — the state equation
shows the only changes are the alias line in the source buffer, the fresh
alias counter, and the `remapped` entry in the interface-name table.  On
the export side the remapping result is ignored: a full module body is
contributed to `exports.modules` for every exported interface, remapped or
not (in addition to the alias binding `name_interface` emits). -/
theorem remapped_interface_contributions (ctx : GenCtx) (st : WasmtimeState)
    (id : Nat) (key : WorldKey) (path : String)
    (h : assoc_get ctx.opts.with_ (ctx.resolve.name_world_key key) = some path) :
    import_item ctx st key (WorldItem.Interface id) =
      { st with
          src := st.src ++ "use " ++ path ++ " as "
            ++ ("__with_name" ++ toString st.with_name_counter) ++ ";\n"
          with_name_counter := st.with_name_counter + 1
          interface_names := assoc_insert st.interface_names id
            ⟨true, "__with_name" ++ toString st.with_name_counter⟩ } ∧
    modules_total (export_item ctx st key (WorldItem.Interface id)).exports_modules
      = modules_total st.exports_modules + 1 := by
  constructor
  · simp [import_item, name_interface, h, String.append_assoc]
  · simp only [export_item]
    rw [entry_push_modules_total, name_interface_exports_modules]

theorem remapped_interface_contributions_witness :
    assoc_get ctx2.opts.with_ (ctx2.resolve.name_world_key (WorldKey.Name "foo"))
      = some "my::ext::path" ∧
    import_item ctx2 WasmtimeState.empty (WorldKey.Name "foo")
        (WorldItem.Interface 0)
      = { WasmtimeState.empty with
          src := WasmtimeState.empty.src ++ "use " ++ "my::ext::path" ++ " as "
            ++ ("__with_name"
              ++ toString WasmtimeState.empty.with_name_counter) ++ ";\n"
          with_name_counter := WasmtimeState.empty.with_name_counter + 1
          interface_names := assoc_insert WasmtimeState.empty.interface_names 0
            ⟨true, "__with_name"
              ++ toString WasmtimeState.empty.with_name_counter⟩ } ∧
    modules_total (export_item ctx2 WasmtimeState.empty (WorldKey.Name "foo")
        (WorldItem.Interface 0)).exports_modules
      = modules_total WasmtimeState.empty.exports_modules + 1 := by
  have t := remapped_interface_contributions ctx2 WasmtimeState.empty 0
    (WorldKey.Name "foo") "my::ext::path" rfl
  exact ⟨rfl, t.1, t.2⟩

/-- C2 (counterexample): for a remapped *exported* interface the generator
emits the alias binding and still contributes a full module body — the
export path ignores the `remapped` result of `name_interface`, so the
claim's "no module body on either side" fails on the export side. -/
theorem remapped_export_emits_module :
    assoc_get ctx2.opts.with_ (ctx2.resolve.name_world_key (WorldKey.Name "foo"))
      = some "my::ext::path" ∧
    (export_item ctx2 WasmtimeState.empty (WorldKey.Name "foo")
        (WorldItem.Interface 0)).src
      = "use my::ext::path as __with_name0;\n" ∧
    modules_total (export_item ctx2 WasmtimeState.empty (WorldKey.Name "foo")
        (WorldItem.Interface 0)).exports_modules = 1 := by
  refine ⟨rfl, by rfl, by rfl⟩

/-- C9 (counterexample): two configurations equal as maps — the same
`resources` entries in a different iteration order — produce different
output: the trait bounds of the world-level `add_to_linker` follow the
map's iteration order, which Rust's `HashMap` does not fix across runs. -/
theorem resource_map_order_changes_output :
    List.Perm [("a", "A"), ("b", "B")] [("b", "B"), ("a", "A")] ∧
    toplevel_add_to_linker (ctx9 [("a", "A"), ("b", "B")]) st9 0 ≠
      toplevel_add_to_linker (ctx9 [("b", "B"), ("a", "A")]) st9 0 := by
  refine ⟨by decide, by decide⟩

end WitBindgen

namespace WasiNn

/-- Immediately after `insert v` returns key `k`, `get k` answers the
inserted value. -/
theorem insert_get_immediate {V : Type} (t : Table V) (v : V) :
    ((t.insert v).2).get (t.insert v).1 = some v := by
  simp [Table.insert, Table.use_next_key, Table.get]

/-- The behavior of a run of inserts below the `u32` bound: the counter
advances by the number of inserts and the entries hold exactly the
inserted values at the keys handed out. -/
theorem insert_all_spec {V : Type} :
    ∀ (vs : List V) (t : Table V), t.next_key + vs.length < 2 ^ 32 →
    (insert_all t vs).next_key = t.next_key + vs.length ∧
    ∀ k, (insert_all t vs).get k =
      if t.next_key ≤ k ∧ k < t.next_key + vs.length then vs[k - t.next_key]?
      else t.get k := by
  intro vs
  induction vs with
  | nil =>
    intro t h
    refine ⟨by simp [insert_all], ?_⟩
    intro k
    have hc : ¬(t.next_key ≤ k ∧ k < t.next_key + ([] : List V).length) := by
      simp only [List.length_nil]
      omega
    rw [if_neg hc]
    rfl
  | cons v rest ih =>
    intro t h
    simp only [List.length_cons] at h
    have hn1 : ((t.insert v).2).next_key = t.next_key + 1 := by
      simp only [Table.insert, Table.use_next_key]
      exact Nat.mod_eq_of_lt (by omega)
    have hrec := ih ((t.insert v).2) (by rw [hn1]; omega)
    have hins : insert_all t (v :: rest) = insert_all ((t.insert v).2) rest := rfl
    refine ⟨?_, ?_⟩
    · rw [hins, hrec.1, hn1]
      simp only [List.length_cons]
      omega
    · intro k
      rw [hins, hrec.2 k, hn1]
      by_cases h1 : k = t.next_key
      · subst h1
        rw [if_neg (by omega),
          if_pos ⟨Nat.le_refl _, by simp only [List.length_cons]; omega⟩]
        simp [Table.insert, Table.use_next_key, Table.get, Nat.sub_self]
      · by_cases h2 : t.next_key + 1 ≤ k ∧ k < t.next_key + 1 + rest.length
        · rw [if_pos h2, if_pos (by simp only [List.length_cons]; omega)]
          have hk : k - t.next_key = (k - (t.next_key + 1)) + 1 := by omega
          rw [hk, List.getElem?_cons_succ]
        · rw [if_neg h2, if_neg (by simp only [List.length_cons]; omega)]
          simp [Table.insert, Table.use_next_key, Table.get, h1]

/-- C10: starting from `Table::default` and any sequence of operations
without `u32` overflow of the key counter (`get` is read-only, so the
state is determined by the list `vs` of previously inserted values): the
next `insert` returns the fresh key `vs.length` — so successive keys are
0, 1, 2, … and never repeat —, `get` of that key immediately answers the
inserted value, and `get k'` answers `none` for every `k'` never returned
by `insert` (the returned keys being exactly `0 … vs.length - 1`). -/
theorem table_insert_get_spec {V : Type} (vs : List V) (v : V) (k' : Nat)
    (h : vs.length < 2 ^ 32) :
    ((insert_all Table.default vs).insert v).1 = vs.length ∧
    (((insert_all Table.default vs).insert v).2).get
        ((insert_all Table.default vs).insert v).1 = some v ∧
    (vs.length ≤ k' → (insert_all Table.default vs).get k' = Option.none) := by
  have hs := insert_all_spec vs Table.default
    (by simp only [Table.default]; omega)
  have hn : (insert_all Table.default vs).next_key = vs.length := by
    rw [hs.1]
    simp [Table.default]
  refine ⟨?_, insert_get_immediate _ _, ?_⟩
  · simpa [Table.insert, Table.use_next_key] using hn
  · intro hk
    have hc : ¬((Table.default : Table V).next_key ≤ k' ∧
        k' < (Table.default : Table V).next_key + vs.length) := by
      simp only [Table.default]
      omega
    rw [hs.2 k', if_neg hc]
    rfl

theorem table_insert_get_spec_witness :
    (["a", "b"] : List String).length < 2 ^ 32 ∧
    ((insert_all Table.default ["a", "b"]).insert "c").1 = 2 ∧
    (((insert_all Table.default ["a", "b"]).insert "c").2).get
        ((insert_all Table.default ["a", "b"]).insert "c").1 = some "c" ∧
    (insert_all Table.default ["a", "b"]).get 5 = Option.none := by
  have h := table_insert_get_spec ["a", "b"] "c" 5 (by norm_num)
  exact ⟨by norm_num, h.1, h.2.1, h.2.2 (by norm_num)⟩

end WasiNn
